import Mathlib

/-!
Verification of the mcp-audit usage-aggregation engine.

The development shallowly embeds the Python sources of the repository:
`src/mcp_audit/codex_cli_adapter.py` and `src/mcp_audit/gemini_cli_adapter.py`
are translated definition by definition.  Both adapters inherit from
`BaseTracker` (module `base_tracker`), whose source file is not part of the
checked-out tree; only its test suite (`tests/test_base_tracker.py`) and its
callers are.  Every definition that stands in for that missing module carries
a doc comment starting with "Modelled from the spec:".

Numeric conventions: Python integers are embedded as `Int`; Python float
ratios (cache efficiency, token averages) are embedded as `ℚ`, which models
the exact real-number intent of the formulas.  Timestamps and wall-clock
durations of the session are abstracted as `Nat` parameters; the JSON
parsing boundary (`json.loads`) is abstracted as a sum type whose `malformed`
constructor stands for a line on which `json.loads` raises.
-/

/-- Association-list lookup by string key (embeds a Python `dict` read:
`d.get(k)`); returns the value at the first matching key. -/
def lookupKey (k : String) : List (String × β) → Option β
  | [] => none
  | (k', v) :: rest => if k = k' then some v else lookupKey k rest

/-- Association-list lookup with a default (embeds `d.get(k, default)`). -/
def lookupKeyD (k : String) (d : β) (l : List (String × β)) : β :=
  (lookupKey k l).getD d

/-- Read-modify-write of one key of a Python `dict`: `d[k] = f(d.get(k, default))`.
New keys are appended at the end, matching insertion-order semantics. -/
def updateAssoc (k : String) (d : β) (f : β → β) : List (String × β) → List (String × β)
  | [] => [(k, f d)]
  | (k', v) :: rest => if k = k' then (k, f v) :: rest else (k', v) :: updateAssoc k d f rest

/-- Key removal (embeds `dict.pop(k, ...)`; a Python dictionary holds each
key at most once, so removal of every matching entry coincides with it on
every state a dictionary can take). -/
def eraseKey (k : String) : List (String × β) → List (String × β)
  | [] => []
  | (k', v) :: rest => if k = k' then eraseKey k rest else (k', v) :: eraseKey k rest

/-- Sum of a projection over an association list's values. -/
def sumAssoc (g : β → Int) : List (String × β) → Int
  | [] => 0
  | (_, v) :: rest => g v + sumAssoc g rest

/-- Sum of a projection over a plain list. -/
def sumList (f : α → Int) : List α → Int
  | [] => 0
  | a :: rest => f a + sumList f rest

/-- Modelled from the spec: the mutable token counters of one session
(`TokenUsage` in the missing `base_tracker.py`): input, output, reasoning,
cache-created, cache-read and total counters plus the stored derived
cache-efficiency ratio. -/
structure TokenUsage where
  input_tokens : Int := 0
  output_tokens : Int := 0
  reasoning_tokens : Int := 0
  cache_created_tokens : Int := 0
  cache_read_tokens : Int := 0
  total_tokens : Int := 0
  cache_efficiency : ℚ := 0
  deriving Repr, DecidableEq

/-- Modelled from the spec: one recorded invocation (`Call` in the missing
`base_tracker.py`): canonical tool name, server name, 1-based sequential
index, token counts, optional duration and optional content hash.  The
timezone-aware timestamp and the platform-specific metadata blob are
external I/O and are not modelled. -/
structure Call where
  tool_name : String
  server : String := "unknown"
  index : Nat := 0
  input_tokens : Int := 0
  output_tokens : Int := 0
  total_tokens : Int := 0
  duration_ms : Int := 0
  content_hash : Option String := none
  deriving Repr, DecidableEq

/-- Modelled from the spec: per-tool aggregate (`ToolStats` in the missing
`base_tracker.py`): call count, total tokens, cache token totals, duration
statistics (absent while no positive duration was ever recorded) and the
ordered call history.  The average token and duration figures are derived
values, computed by `ToolStats.avgTokens` below. -/
structure ToolStats where
  calls : Nat := 0
  total_tokens : Int := 0
  cache_created_tokens : Int := 0
  cache_read_tokens : Int := 0
  total_duration_ms : Option Int := none
  min_duration_ms : Option Int := none
  max_duration_ms : Option Int := none
  call_history : List Call := []
  deriving Repr, DecidableEq

/-- Modelled from the spec: average tokens per call of one tool. -/
def ToolStats.avgTokens (st : ToolStats) : ℚ :=
  (st.total_tokens : ℚ) / (st.calls : ℚ)

/-- Modelled from the spec: one logical MCP-style tool provider
(`ServerSession` in the missing `base_tracker.py`), created lazily on the
first call referencing that server and never deleted. -/
structure ServerSession where
  server : String := "unknown"
  total_calls : Nat := 0
  total_tokens : Int := 0
  tools : List (String × ToolStats) := []
  deriving Repr, DecidableEq

/-- Modelled from the spec: the mutable ledger owned by one tracker: session
token totals, the server map, the content-hash index (hash to list of call
indices), the sequential call counter, the accumulated non-fatal warnings
and the externally supplied cache-savings amount. -/
structure TrackerState where
  token_usage : TokenUsage := {}
  server_sessions : List (String × ServerSession) := []
  content_hashes : List (String × List Nat) := []
  total_call_count : Nat := 0
  start_time : Nat := 0
  cache_savings_usd : ℚ := 0
  warnings : List String := []
  deriving Repr, DecidableEq

/-- Helper: does the character list start with the given pattern? -/
def leadsWith : List Char → List Char → Bool
  | [], _ => true
  | _ :: _, [] => false
  | p :: ps, c :: cs => p = c && leadsWith ps cs

/-- Helper: does the character list contain the pattern as a contiguous
sub-sequence?  Embeds Python's `pat in s` substring test. -/
def containsSub (pat : List Char) : List Char → Bool
  | [] => leadsWith pat []
  | c :: cs => leadsWith pat (c :: cs) || containsSub pat cs

/-- Helper: drop a trailing suffix from a character list when present. -/
def dropSuffixIfPresent (suf cs : List Char) : List Char :=
  if (cs.reverse.take suf.length) = suf.reverse then cs.take (cs.length - suf.length) else cs

/-- Helper: split a character list at the first occurrence of a double
underscore, returning the part before and the part after it. -/
def splitFirstDoubleUnderscore : List Char → Option (List Char × List Char)
  | [] => none
  | '_' :: '_' :: rest => some ([], rest)
  | c :: rest =>
    match splitFirstDoubleUnderscore rest with
    | some (a, b) => some (c :: a, b)
    | none => none

/-- Modelled from the spec: the name normalizer of the missing
`base_tracker.py` (`normalize_server_name` together with
`normalize_tool_name`).  A raw identifier of the shape
`mcp__<server>__<toolSuffix>` yields the server segment with a trailing
`-mcp` stripped, and the canonical identifier re-emitted with the stripped
server substituted; any other identifier yields server `"unknown"`, the raw
identifier passed through unchanged, and a raised warning flag. -/
def normalizeToolIdentifier (s : String) : String × String × Bool :=
  let cs := s.data
  if cs.take 5 = "mcp__".data then
    match splitFirstDoubleUnderscore (cs.drop 5) with
    | some (serverSeg, suffixSeg) =>
      let server := dropSuffixIfPresent "-mcp".data serverSeg
      (String.mk server, String.mk ("mcp__".data ++ server ++ "__".data ++ suffixSeg), false)
    | none => ("unknown", s, true)
  else ("unknown", s, true)

/-- Modelled from the spec: `normalize_server_name` of the missing
`base_tracker.py`. -/
def normalize_server_name (s : String) : String :=
  (normalizeToolIdentifier s).1

/-- Modelled from the spec: `normalize_tool_name` of the missing
`base_tracker.py`. -/
def normalize_tool_name (s : String) : String :=
  (normalizeToolIdentifier s).2.1

/-- Modelled from the spec: `compute_content_hash` of the missing
`base_tracker.py` hashes the serialized tool parameters.  Hashing itself is
an external library call; it is modelled as the identity on the serialized
parameter string, which preserves the only property the engine relies on:
equal content gives equal hash. -/
def compute_content_hash (serializedParams : String) : String :=
  serializedParams

/-- Modelled from the spec: `handle_unrecognized_line` of the missing
`base_tracker.py` emits a non-fatal warning; warnings are modelled as an
accumulating list on the tracker state. -/
def handle_unrecognized_line (t : TrackerState) (msg : String) : TrackerState :=
  { t with warnings := t.warnings ++ [msg] }

/-- Modelled from the spec: the cache-efficiency formula of `TokenUsage`:
cache-read over (input + cache-created + cache-read), zero when the
denominator is zero. -/
def cacheEfficiencyOf (u : TokenUsage) : ℚ :=
  let denom := u.input_tokens + u.cache_created_tokens + u.cache_read_tokens
  if denom = 0 then 0 else (u.cache_read_tokens : ℚ) / (denom : ℚ)

/-- Modelled from the spec: the `ToolStats` update performed by
`record_tool_call` for one new call: bump the call count, add the token
totals, add the cache token deltas, fold a positive duration into the
duration statistics, and append the call to the history. -/
def ToolStats.addCall (st : ToolStats) (c : Call) (cc cr : Int) : ToolStats :=
  { st with
    calls := st.calls + 1
    total_tokens := st.total_tokens + c.total_tokens
    cache_created_tokens := st.cache_created_tokens + cc
    cache_read_tokens := st.cache_read_tokens + cr
    total_duration_ms :=
      if c.duration_ms > 0 then some (st.total_duration_ms.getD 0 + c.duration_ms)
      else st.total_duration_ms
    min_duration_ms :=
      if c.duration_ms > 0 then
        some (match st.min_duration_ms with
              | none => c.duration_ms
              | some m => min m c.duration_ms)
      else st.min_duration_ms
    max_duration_ms :=
      if c.duration_ms > 0 then
        some (match st.max_duration_ms with
              | none => c.duration_ms
              | some m => max m c.duration_ms)
      else st.max_duration_ms
    call_history := st.call_history ++ [c] }

/-- Modelled from the spec: `record_tool_call` of the missing
`base_tracker.py`, the single recording entry point every adapter calls.
It normalizes the identifier (recording a warning for an unrecognized
shape), assigns the next sequential 1-based index, creates the
`ServerSession` and `ToolStats` entries lazily, appends the `Call`, updates
all running totals additively, updates the session `TokenUsage` by the same
deltas, recomputes the cache efficiency, and appends the call index to the
content-hash bucket when a hash is supplied. -/
def record_tool_call (t : TrackerState) (tool_name : String)
    (input_tokens output_tokens cache_created_tokens cache_read_tokens : Int)
    (duration_ms : Int := 0) (content_hash : Option String := none) : TrackerState :=
  let norm := normalizeToolIdentifier tool_name
  let server := norm.1
  let tool := norm.2.1
  let warned := norm.2.2
  let idx := t.total_call_count + 1
  let callTotal := input_tokens + output_tokens + cache_created_tokens + cache_read_tokens
  let c : Call :=
    { tool_name := tool, server := server, index := idx,
      input_tokens := input_tokens, output_tokens := output_tokens,
      total_tokens := callTotal, duration_ms := duration_ms,
      content_hash := content_hash }
  let u := t.token_usage
  let u' : TokenUsage :=
    { u with
      input_tokens := u.input_tokens + input_tokens
      output_tokens := u.output_tokens + output_tokens
      cache_created_tokens := u.cache_created_tokens + cache_created_tokens
      cache_read_tokens := u.cache_read_tokens + cache_read_tokens
      total_tokens := u.total_tokens + callTotal }
  { t with
    token_usage := { u' with cache_efficiency := cacheEfficiencyOf u' }
    server_sessions :=
      updateAssoc server { server := server } (fun sv =>
        { sv with
          total_calls := sv.total_calls + 1
          total_tokens := sv.total_tokens + callTotal
          tools := updateAssoc tool {} (fun st => st.addCall c cache_created_tokens cache_read_tokens) sv.tools })
        t.server_sessions
    content_hashes :=
      match content_hash with
      | none => t.content_hashes
      | some h => updateAssoc h [] (fun b => b ++ [idx]) t.content_hashes
    total_call_count := idx
    warnings := if warned then t.warnings ++ ["unrecognized tool identifier: " ++ tool_name] else t.warnings }

/-- All recorded calls of the ledger, in the per-server, per-tool history
order used by the persistence codec's flat `tool_calls` array. -/
def allCalls (t : TrackerState) : List Call :=
  (t.server_sessions.map (fun sv => (sv.2.tools.map (fun tl => tl.2.call_history)).flatten)).flatten

/-- Modelled from the spec: the MCP-call summary computed at finalization
(`MCPToolCalls` in the missing `base_tracker.py`): total calls, unique tool
count over all servers, and the top tools formatted as
"tool (n calls)". -/
structure MCPToolCalls where
  total_calls : Nat := 0
  unique_tools : Nat := 0
  most_called : List String := []
  deriving Repr, DecidableEq

/-- Modelled from the spec: one flagged anomaly, either a tool called above
the fixed call-count threshold or a tool whose average tokens per call
exceeds the fixed token threshold. -/
inductive Anomaly
  | high_frequency (tool : String) (calls : Nat)
  | high_avg_tokens (tool : String) (avg_tokens : ℚ)
  deriving Repr, DecidableEq

/-- Modelled from the spec: the redundancy result derived from the
content-hash index. -/
structure RedundancyAnalysis where
  duplicate_calls : Nat := 0
  potential_savings : Int := 0
  deriving Repr, DecidableEq

/-- Modelled from the spec: the cache analysis computed at finalization. -/
structure CacheAnalysis where
  status : String
  creation_tokens : Int
  read_tokens : Int
  ratio : ℚ
  net_savings_usd : ℚ
  summary : String
  recommendation : String
  top_cache_creators : List (String × Int)
  top_cache_readers : List (String × Int)
  deriving Repr, DecidableEq

/-- Modelled from the spec: the immutable finalized view of a session
produced by `finalize_session`: end timestamp, duration, the derived
summaries, and snapshots of the recorded ledger. -/
structure FinalizedSession where
  end_timestamp : Nat
  duration_seconds : Nat
  mcp_tool_calls : MCPToolCalls
  redundancy_analysis : RedundancyAnalysis
  anomalies : List Anomaly
  cache_analysis : CacheAnalysis
  token_usage : TokenUsage
  server_sessions : List (String × ServerSession)
  deriving Repr, DecidableEq

/-- Look up a recorded call by its 1-based sequential index. -/
def findCallByIndex (t : TrackerState) (i : Nat) : Option Call :=
  (allCalls t).find? (fun c => c.index = i)

/-- Total tokens of the call at a given index, zero when absent. -/
def tokensAtIndex (t : TrackerState) (i : Nat) : Int :=
  ((findCallByIndex t i).map (fun c => c.total_tokens)).getD 0

/-- Modelled from the spec: `_analyze_redundancy` of the missing
`base_tracker.py`: the duplicate count is the sum over content-hash buckets
of (bucket size minus one); the potential savings is the sum, over the
occurrences after the first of each bucket, of that call's total tokens. -/
def analyze_redundancy (t : TrackerState) : RedundancyAnalysis :=
  let step := fun (acc : Nat × Int) (bucket : String × List Nat) =>
    (acc.1 + (bucket.2.length - 1), acc.2 + sumList (tokensAtIndex t) bucket.2.tail)
  let r := t.content_hashes.foldl step (0, 0)
  { duplicate_calls := r.1, potential_savings := r.2 }

/-- Modelled from the spec: the fixed anomaly thresholds (ten calls and an
average of five hundred thousand tokens per call). -/
def HIGH_FREQUENCY_THRESHOLD : Nat := 10

/-- Modelled from the spec: the fixed average-token anomaly threshold. -/
def HIGH_AVG_TOKENS_THRESHOLD : ℚ := 500000

/-- Modelled from the spec: the per-tool anomaly checks of
`_detect_anomalies`, over the tool map of one server. -/
def detect_anomalies_tools : List (String × ToolStats) → List Anomaly
  | [] => []
  | (name, st) :: rest =>
    (if HIGH_FREQUENCY_THRESHOLD < st.calls then [Anomaly.high_frequency name st.calls] else []) ++
    (if HIGH_AVG_TOKENS_THRESHOLD < st.avgTokens then [Anomaly.high_avg_tokens name st.avgTokens] else []) ++
    detect_anomalies_tools rest

/-- Modelled from the spec: `_detect_anomalies` of the missing
`base_tracker.py`, evaluated per tool across every server of the session. -/
def detect_anomalies : List (String × ServerSession) → List Anomaly
  | [] => []
  | (_, sv) :: rest => detect_anomalies_tools sv.tools ++ detect_anomalies rest

/-- Insertion into a list sorted by a boolean comparison (used for the
top-N rankings computed at finalization). -/
def insertRanked (le : α → α → Bool) (a : α) : List α → List α
  | [] => [a]
  | b :: rest => if le a b then a :: b :: rest else b :: insertRanked le a rest

/-- Insertion sort by a boolean comparison. -/
def sortRanked (le : α → α → Bool) : List α → List α
  | [] => []
  | a :: rest => insertRanked le a (sortRanked le rest)

/-- The (tool name, statistic) pairs of every tool of every server. -/
def allToolEntries (ss : List (String × ServerSession)) : List (String × ToolStats) :=
  (ss.map (fun sv => sv.2.tools)).flatten

/-- Modelled from the spec: the `MCPToolCalls` summary built at
finalization: total calls, unique tool count over all servers, and the five
most-called tools rendered as "tool (n calls)". -/
def build_mcp_summary (t : TrackerState) : MCPToolCalls :=
  let entries := allToolEntries t.server_sessions
  let ranked := sortRanked (fun a b => b.2.calls ≤ a.2.calls) entries
  { total_calls := (allCalls t).length
    unique_tools := entries.length
    most_called :=
      (ranked.take 5).map (fun e => e.1 ++ " (" ++ toString e.2.calls ++ " calls)") }

/-- Modelled from the spec: `_build_cache_analysis` of the missing
`base_tracker.py`: classify the aggregate cache-creation and cache-read
totals, record the externally supplied net savings, and rank the top three
cache-creating and cache-reading tools. -/
def build_cache_analysis (t : TrackerState) (net_savings_usd : ℚ) : CacheAnalysis :=
  let creation := t.token_usage.cache_created_tokens
  let read := t.token_usage.cache_read_tokens
  let ratio : ℚ := if creation > 0 then (read : ℚ) / (creation : ℚ) else 0
  let entries := allToolEntries t.server_sessions
  let creators := (sortRanked (fun a b => b.2.cache_created_tokens ≤ a.2.cache_created_tokens) entries).take 3
  let readers := (sortRanked (fun a b => b.2.cache_read_tokens ≤ a.2.cache_read_tokens) entries).take 3
  let base : CacheAnalysis :=
    { status := "neutral"
      creation_tokens := creation
      read_tokens := read
      ratio := ratio
      net_savings_usd := net_savings_usd
      summary := "No cache activity"
      recommendation := ""
      top_cache_creators := creators.map (fun e => (e.1, e.2.cache_created_tokens))
      top_cache_readers := readers.map (fun e => (e.1, e.2.cache_read_tokens)) }
  if creation = 0 ∧ read = 0 then
    base
  else if creation > 0 ∧ read = 0 then
    { base with
      status := "inefficient"
      summary := "Cache created but no reuse"
      recommendation := "Batch related calls to increase cache reuse" }
  else if creation > 0 ∧ ratio < (1 : ℚ) / 10 then
    { base with
      status := "inefficient"
      summary := "Cache created with low reuse"
      recommendation := "Batch related calls to increase cache reuse" }
  else
    { base with
      status := "efficient"
      summary := "Cache saved tokens"
      recommendation := "Cache is used efficiently" }

/-- Modelled from the spec: `finalize_session` of the missing
`base_tracker.py`: set the end timestamp and duration and compute the
derived summaries (MCP summary, redundancy analysis, anomaly detection,
cache analysis) from the recorded calls, without mutating the recorded
`Call` and `ToolStats` history. -/
def finalize_session (t : TrackerState) (end_time : Nat) : FinalizedSession :=
  { end_timestamp := end_time
    duration_seconds := end_time - t.start_time
    mcp_tool_calls := build_mcp_summary t
    redundancy_analysis := analyze_redundancy t
    anomalies := detect_anomalies t.server_sessions
    cache_analysis := build_cache_analysis t t.cache_savings_usd
    token_usage := t.token_usage
    server_sessions := t.server_sessions }

/-- Embeds the `"__session__"` branch shared verbatim by
`CodexCLIAdapter._process_tool_call` and
`GeminiCLIAdapter._process_tool_call`: add the four deltas and their sum to
the session counters, then recompute the cache efficiency only when the
recomputed denominator is positive. -/
def sessionDeltaUpdate (u : TokenUsage) (input output cc cr : Int) : TokenUsage :=
  let total_tokens := input + output + cc + cr
  let u' : TokenUsage :=
    { u with
      input_tokens := u.input_tokens + input
      output_tokens := u.output_tokens + output
      cache_created_tokens := u.cache_created_tokens + cc
      cache_read_tokens := u.cache_read_tokens + cr
      total_tokens := u.total_tokens + total_tokens }
  let total_input := u'.input_tokens + u'.cache_created_tokens + u'.cache_read_tokens
  if total_input > 0 then
    { u' with cache_efficiency := (u'.cache_read_tokens : ℚ) / (total_input : ℚ) }
  else
    u'

namespace CodexCLIAdapter

/-- Token numbers of one Codex CLI `token_count` payload entry
(`last_token_usage` or `total_token_usage` in
`codex_cli_adapter.py`). -/
structure CodexTokenNumbers where
  input_tokens : Int := 0
  cached_input_tokens : Int := 0
  output_tokens : Int := 0
  reasoning_output_tokens : Int := 0
  deriving Repr, DecidableEq

/-- The `info` object of a Codex CLI `token_count` payload.  A field is
`none` when the corresponding key is absent or its value is falsy in
Python (an empty dictionary). -/
structure CodexTokenInfo where
  last_token_usage : Option CodexTokenNumbers := none
  total_token_usage : Option CodexTokenNumbers := none
  deriving Repr, DecidableEq

/-- One successfully JSON-decoded Codex CLI event, dispatched the way
`CodexCLIAdapter.parse_event` dispatches on `type` and `payload.type`:
`turn_context`, `event_msg`/`token_count`,
`response_item`/`function_call`, or anything else. -/
inductive CodexEvent
  | turn_context (model : Option String)
  | token_count (info : Option CodexTokenInfo)
  | function_call (name : String) (tool_params : Option String) (call_id : Option String)
  | other
  deriving Repr, DecidableEq

/-- One raw input line at the `json.loads` boundary of
`CodexCLIAdapter.parse_event`: blank after stripping, a line on which
`json.loads` raises, or a decoded event. -/
inductive CodexLine
  | blank
  | malformed (err : String)
  | event (e : CodexEvent)
  deriving Repr, DecidableEq

/-- The usage dictionary passed between `parse_event` and
`_process_tool_call` in `codex_cli_adapter.py`.  `tool_params` is the
serialized argument object of a `function_call` event, `none` when the
arguments failed to decode or decoded to an empty (falsy) object. -/
structure CodexUsage where
  input_tokens : Int := 0
  output_tokens : Int := 0
  cache_created_tokens : Int := 0
  cache_read_tokens : Int := 0
  tool_params : Option String := none
  call_id : Option String := none
  deriving Repr, DecidableEq

/-- The mutable adapter state of `CodexCLIAdapter`: the inherited
`BaseTracker` ledger plus the model-detection fields. -/
structure CodexState where
  tracker : TrackerState := {}
  detected_model : Option String := none
  model_name : String := "Unknown Model"
  session_model : Option String := none
  deriving Repr, DecidableEq

/-- Embeds `CodexCLIAdapter._parse_turn_context`: record the first detected
model identifier, map it to a display name, and set it on the session. -/
def parse_turn_context (s : CodexState) (model : Option String) : CodexState :=
  match s.detected_model with
  | some _ => s
  | none =>
    match model with
    | none => s
    | some m =>
      { s with detected_model := some m, model_name := m, session_model := some m }

/-- Embeds `CodexCLIAdapter._parse_token_count`: use `last_token_usage`,
falling back to `total_token_usage`; build the usage dictionary (reasoning
output folded into output, no cache creation); return a session-level
result only when the summed tokens are positive. -/
def parse_token_count (info : Option CodexTokenInfo) : Option (String × CodexUsage) :=
  match info with
  | none => none
  | some i =>
    match i.last_token_usage.or i.total_token_usage with
    | none => none
    | some usage =>
      let usage_dict : CodexUsage :=
        { input_tokens := usage.input_tokens
          output_tokens := usage.output_tokens + usage.reasoning_output_tokens
          cache_created_tokens := 0
          cache_read_tokens := usage.cached_input_tokens }
      let total_tokens := usage_dict.input_tokens + usage_dict.output_tokens +
        usage_dict.cache_created_tokens + usage_dict.cache_read_tokens
      if total_tokens > 0 then some ("__session__", usage_dict) else none

/-- Embeds `CodexCLIAdapter._parse_function_call`: only MCP tools (name
starting with `mcp__`) are returned, with zero token counts and the decoded
tool parameters. -/
def parse_function_call (name : String) (tool_params : Option String)
    (call_id : Option String) : Option (String × CodexUsage) :=
  if leadsWith "mcp__".data name.data then
    some (name, { tool_params := tool_params, call_id := call_id })
  else
    none

/-- Embeds `CodexCLIAdapter.parse_event`: dispatch a raw line.  A blank
line yields nothing; a line on which `json.loads` raises is reported
through `handle_unrecognized_line` and yields nothing; a decoded event is
dispatched on its type. -/
def parse_event (s : CodexState) (l : CodexLine) : CodexState × Option (String × CodexUsage) :=
  match l with
  | .blank => (s, none)
  | .malformed err =>
    ({ s with tracker := handle_unrecognized_line s.tracker ("Parse error: " ++ err) }, none)
  | .event e =>
    match e with
    | .turn_context model => (parse_turn_context s model, none)
    | .token_count info => (s, parse_token_count info)
    | .function_call name tool_params call_id => (s, parse_function_call name tool_params call_id)
    | .other => (s, none)

/-- Embeds `CodexCLIAdapter._process_tool_call`: the sentinel identifier
`"__session__"` updates the session token usage directly and returns;
every other identifier is recorded through `record_tool_call` with a
content hash computed from the tool parameters when present and a zero
duration. -/
def process_tool_call (s : CodexState) (tool_name : String) (usage : CodexUsage) : CodexState :=
  if tool_name = "__session__" then
    let usage' := sessionDeltaUpdate s.tracker.token_usage usage.input_tokens
      usage.output_tokens usage.cache_created_tokens usage.cache_read_tokens
    { s with tracker := { s.tracker with token_usage := usage' } }
  else
    let content_hash := usage.tool_params.map compute_content_hash
    let tracker' := record_tool_call s.tracker tool_name usage.input_tokens
      usage.output_tokens usage.cache_created_tokens usage.cache_read_tokens 0 content_hash
    { s with tracker := tracker' }

/-- One iteration of the monitoring loop of
`CodexCLIAdapter.start_tracking`: parse a line and, when parsing yields a
result, process it. -/
def ingest (s : CodexState) (l : CodexLine) : CodexState :=
  match parse_event s l with
  | (s', some r) => process_tool_call s' r.1 r.2
  | (s', none) => s'

/-- The monitoring loop run over a whole list of input lines, from a given
state. -/
def ingestAll (s : CodexState) : List CodexLine → CodexState
  | [] => s
  | l :: rest => ingestAll (ingest s l) rest

/-- Processing a list of already-parsed `(tool_name, usage)` results, as
handed by `parse_event` to `_process_tool_call`, from a given state. -/
def processAll (s : CodexState) : List (String × CodexUsage) → CodexState
  | [] => s
  | r :: rest => processAll (process_tool_call s r.1 r.2) rest

end CodexCLIAdapter

namespace GeminiCLIAdapter

/-- OpenTelemetry metric names used by `GeminiCLIAdapter`. -/
def METRIC_TOKEN_USAGE : String := "gemini_cli.token.usage"

/-- Metric name of the tool-call-count metric. -/
def METRIC_TOOL_CALL_COUNT : String := "gemini_cli.tool.call.count"

/-- Metric name of the tool-call-latency metric. -/
def METRIC_TOOL_CALL_LATENCY : String := "gemini_cli.tool.call.latency"

/-- The attribute object of one decoded telemetry metric line, with absent
keys embedded as the defaults `attributes.get(...)` yields in
`gemini_cli_adapter.py`. -/
structure GeminiAttrs where
  tool_type : String := ""
  function_name : String := ""
  token_type : String := ""
  model : Option String := none
  success : Bool := true
  decision : String := "auto_accept"
  deriving Repr, DecidableEq

/-- One raw input line at the `json.loads` boundary of
`GeminiCLIAdapter.parse_event`: a line on which `json.loads` raises, or a
decoded metric record with its name, attributes and value. -/
inductive GeminiLine
  | malformed (err : String)
  | metric (metric_name : String) (attrs : GeminiAttrs) (value : Int)
  deriving Repr, DecidableEq

/-- The usage dictionary passed between `parse_event` and
`_process_tool_call` in `gemini_cli_adapter.py`. -/
structure GeminiUsage where
  input_tokens : Int := 0
  output_tokens : Int := 0
  cache_created_tokens : Int := 0
  cache_read_tokens : Int := 0
  duration_ms : Int := 0
  success : Bool := true
  decision : String := "auto_accept"
  deriving Repr, DecidableEq

/-- The mutable adapter state of `GeminiCLIAdapter`: the inherited
`BaseTracker` ledger, the pending token counters awaiting attribution, the
pending latencies keyed by function name, the cumulative thinking-token
counter and the model-detection fields. -/
structure GeminiState where
  tracker : TrackerState := {}
  pending_input : Int := 0
  pending_output : Int := 0
  pending_cache : Int := 0
  pending_thought : Int := 0
  pending_latencies : List (String × Int) := []
  thoughts_tokens : Int := 0
  detected_model : Option String := none
  model_name : String := "Unknown Model"
  session_model : Option String := none
  deriving Repr, DecidableEq

/-- Embeds `GeminiCLIAdapter._parse_tool_call_count`: only MCP tools
(`tool_type = "mcp"` and a `mcp__` name) are returned; the usage is built
from the pending input, output and cache counters, the matching pending
latency is popped, and all four pending counters are reset to zero. -/
def parse_tool_call_count (s : GeminiState) (attrs : GeminiAttrs) :
    GeminiState × Option (String × GeminiUsage) :=
  if attrs.tool_type ≠ "mcp" then (s, none)
  else if ¬ leadsWith "mcp__".data attrs.function_name.data then (s, none)
  else
    let usage_dict : GeminiUsage :=
      { input_tokens := s.pending_input
        output_tokens := s.pending_output
        cache_created_tokens := 0
        cache_read_tokens := s.pending_cache
        duration_ms := lookupKeyD attrs.function_name 0 s.pending_latencies
        success := attrs.success
        decision := attrs.decision }
    let s' : GeminiState :=
      { s with
        pending_latencies := eraseKey attrs.function_name s.pending_latencies
        pending_input := 0
        pending_output := 0
        pending_cache := 0
        pending_thought := 0 }
    (s', some (attrs.function_name, usage_dict))

/-- The model-detection step of `_parse_token_usage`: record the first
model identifier seen on a token metric. -/
def detect_model (s : GeminiState) (model : Option String) : GeminiState :=
  match model, s.detected_model with
  | some m, none =>
    { s with detected_model := some m, model_name := m, session_model := some m }
  | _, _ => s

/-- Embeds `GeminiCLIAdapter._parse_token_usage`: accumulate the value into
the pending counter selected by the token type (thought tokens also feed the
session-wide thinking counter and count as output for session totals),
detect the model on first sight, and return a session-level usage when the
value is positive. -/
def parse_token_usage (s : GeminiState) (attrs : GeminiAttrs) (value : Int) :
    GeminiState × Option (String × GeminiUsage) :=
  let usage_dict : GeminiUsage := {}
  let (s₁, usage₁) :=
    if attrs.token_type = "input" then
      ({ s with pending_input := s.pending_input + value },
       { usage_dict with input_tokens := value })
    else if attrs.token_type = "output" then
      ({ s with pending_output := s.pending_output + value },
       { usage_dict with output_tokens := value })
    else if attrs.token_type = "thought" then
      ({ s with pending_thought := s.pending_thought + value
                thoughts_tokens := s.thoughts_tokens + value },
       { usage_dict with output_tokens := value })
    else if attrs.token_type = "cache" then
      ({ s with pending_cache := s.pending_cache + value },
       { usage_dict with cache_read_tokens := value })
    else (s, usage_dict)
  let s₂ := detect_model s₁ attrs.model
  if value > 0 then (s₂, some ("__session__", usage₁)) else (s₂, none)

/-- Embeds `GeminiCLIAdapter._parse_tool_latency`: store the latency keyed
by the function name when the name is non-empty. -/
def parse_tool_latency (s : GeminiState) (attrs : GeminiAttrs) (value : Int) : GeminiState :=
  if attrs.function_name = "" then s
  else { s with pending_latencies := updateAssoc attrs.function_name 0 (fun _ => value) s.pending_latencies }

/-- Embeds `GeminiCLIAdapter.parse_event`: dispatch on the metric name by
substring containment, in the source's order (tool call count, then token
usage, then latency); a line on which `json.loads` raises is reported
through `handle_unrecognized_line` and yields nothing. -/
def parse_event (s : GeminiState) (l : GeminiLine) : GeminiState × Option (String × GeminiUsage) :=
  match l with
  | .malformed err =>
    ({ s with tracker := handle_unrecognized_line s.tracker ("Parse error: " ++ err) }, none)
  | .metric metric_name attrs value =>
    if containsSub METRIC_TOOL_CALL_COUNT.data metric_name.data then
      parse_tool_call_count s attrs
    else if containsSub METRIC_TOKEN_USAGE.data metric_name.data then
      parse_token_usage s attrs value
    else if containsSub METRIC_TOOL_CALL_LATENCY.data metric_name.data then
      (parse_tool_latency s attrs value, none)
    else
      (s, none)

/-- Embeds `GeminiCLIAdapter._process_tool_call`: the sentinel identifier
`"__session__"` updates the session token usage directly and returns;
every other identifier is recorded through `record_tool_call` with no
content hash and the correlated duration. -/
def process_tool_call (s : GeminiState) (tool_name : String) (usage : GeminiUsage) : GeminiState :=
  if tool_name = "__session__" then
    let usage' := sessionDeltaUpdate s.tracker.token_usage usage.input_tokens
      usage.output_tokens usage.cache_created_tokens usage.cache_read_tokens
    { s with tracker := { s.tracker with token_usage := usage' } }
  else
    let tracker' := record_tool_call s.tracker tool_name usage.input_tokens
      usage.output_tokens usage.cache_created_tokens usage.cache_read_tokens
      usage.duration_ms none
    { s with tracker := tracker' }

/-- One iteration of `GeminiCLIAdapter._process_new_telemetry` over one
line: parse it and, when parsing yields a result, process it. -/
def ingest (s : GeminiState) (l : GeminiLine) : GeminiState :=
  match parse_event s l with
  | (s', some r) => process_tool_call s' r.1 r.2
  | (s', none) => s'

/-- The telemetry loop run over a whole list of input lines, from a given
state. -/
def ingestAll (s : GeminiState) : List GeminiLine → GeminiState
  | [] => s
  | l :: rest => ingestAll (ingest s l) rest

/-- Processing a list of already-parsed `(tool_name, usage)` results, as
handed by `parse_event` to `_process_tool_call`, from a given state. -/
def processAll (s : GeminiState) : List (String × GeminiUsage) → GeminiState
  | [] => s
  | r :: rest => processAll (process_tool_call s r.1 r.2) rest

end GeminiCLIAdapter

/-- Sum of a natural-number projection over a plain list. -/
def sumListNat (f : α → Nat) : List α → Nat
  | [] => 0
  | a :: rest => f a + sumListNat f rest

/-- Sum of the total tokens of every recorded call of the ledger. -/
def callFieldSum (f : Call → Int) (t : TrackerState) : Int :=
  sumAssoc (fun sv => sumAssoc (fun st => sumList f st.call_history) sv.tools) t.server_sessions

/-- Sum of a `ToolStats` projection over every tool of every server. -/
def statsFieldSum (g : ToolStats → Int) (t : TrackerState) : Int :=
  sumAssoc (fun sv => sumAssoc g sv.tools) t.server_sessions

theorem sumList_append (f : α → Int) (l : List α) (a : α) :
    sumList f (l ++ [a]) = sumList f l + f a := by
  induction l with
  | nil => simp [sumList]
  | cons b rest ih => simp [sumList, ih]; ring

theorem sumAssoc_updateAssoc (g : β → Int) (k : String) (d : β) (f : β → β) (δ : Int)
    (hf : ∀ x, g (f x) = g x + δ) (hd : g d = 0) (l : List (String × β)) :
    sumAssoc g (updateAssoc k d f l) = sumAssoc g l + δ := by
  induction l with
  | nil => simp [updateAssoc, sumAssoc, hf, hd]
  | cons p rest ih =>
    obtain ⟨k', v⟩ := p
    by_cases h : k = k' <;> simp [updateAssoc, sumAssoc, h, hf, ih] <;> ring

theorem lookupKey_eraseKey (k : String) (l : List (String × β)) :
    lookupKey k (eraseKey k l) = none := by
  induction l with
  | nil => rfl
  | cons p rest ih =>
    obtain ⟨k', v⟩ := p
    by_cases h : k = k'
    · subst h; simp [eraseKey, ih]
    · simp [eraseKey, lookupKey, h, ih]

/-- The `Call` record that `record_tool_call` appends. -/
def recordedCall (t : TrackerState) (tool_name : String)
    (input_tokens output_tokens cache_created_tokens cache_read_tokens : Int)
    (duration_ms : Int) (content_hash : Option String) : Call :=
  { tool_name := normalize_tool_name tool_name
    server := normalize_server_name tool_name
    index := t.total_call_count + 1
    input_tokens := input_tokens
    output_tokens := output_tokens
    total_tokens := input_tokens + output_tokens + cache_created_tokens + cache_read_tokens
    duration_ms := duration_ms
    content_hash := content_hash }

theorem callFieldSum_record (f : Call → Int) (t : TrackerState) (n : String)
    (i o cc cr d : Int) (h : Option String) :
    callFieldSum f (record_tool_call t n i o cc cr d h) =
      callFieldSum f t + f (recordedCall t n i o cc cr d h) := by
  unfold callFieldSum record_tool_call recordedCall normalize_tool_name normalize_server_name
  refine sumAssoc_updateAssoc _ _ _ _ _ (fun sv => ?_) (by simp [sumAssoc]) _
  refine sumAssoc_updateAssoc _ _ _ _ _ (fun st => ?_) (by simp [sumList]) _
  simp [ToolStats.addCall, sumList_append]

theorem statsFieldSum_record (g : ToolStats → Int) (δ : Int) (t : TrackerState) (n : String)
    (i o cc cr d : Int) (h : Option String)
    (hg : ∀ st c, g (ToolStats.addCall st c cc cr) = g st + δ) (h0 : g {} = 0) :
    statsFieldSum g (record_tool_call t n i o cc cr d h) = statsFieldSum g t + δ := by
  unfold statsFieldSum record_tool_call
  refine sumAssoc_updateAssoc _ _ _ _ _ (fun sv => ?_) (by simp [sumAssoc]) _
  exact sumAssoc_updateAssoc _ _ _ _ _ (fun st => hg st _) h0 _

theorem record_token_usage (t : TrackerState) (n : String) (i o cc cr d : Int)
    (h : Option String) :
    (record_tool_call t n i o cc cr d h).token_usage.input_tokens =
        t.token_usage.input_tokens + i ∧
      (record_tool_call t n i o cc cr d h).token_usage.output_tokens =
        t.token_usage.output_tokens + o ∧
      (record_tool_call t n i o cc cr d h).token_usage.cache_created_tokens =
        t.token_usage.cache_created_tokens + cc ∧
      (record_tool_call t n i o cc cr d h).token_usage.cache_read_tokens =
        t.token_usage.cache_read_tokens + cr ∧
      (record_tool_call t n i o cc cr d h).token_usage.total_tokens =
        t.token_usage.total_tokens + (i + o + cc + cr) ∧
      (record_tool_call t n i o cc cr d h).token_usage.cache_efficiency =
        cacheEfficiencyOf (record_tool_call t n i o cc cr d h).token_usage := by
  refine ⟨rfl, rfl, rfl, rfl, rfl, ?_⟩
  simp [record_tool_call, cacheEfficiencyOf]

theorem sessionDeltaUpdate_counters (u : TokenUsage) (i o cc cr : Int) :
    (sessionDeltaUpdate u i o cc cr).input_tokens = u.input_tokens + i ∧
      (sessionDeltaUpdate u i o cc cr).output_tokens = u.output_tokens + o ∧
      (sessionDeltaUpdate u i o cc cr).cache_created_tokens = u.cache_created_tokens + cc ∧
      (sessionDeltaUpdate u i o cc cr).cache_read_tokens = u.cache_read_tokens + cr ∧
      (sessionDeltaUpdate u i o cc cr).total_tokens = u.total_tokens + (i + o + cc + cr) ∧
      (sessionDeltaUpdate u i o cc cr).reasoning_tokens = u.reasoning_tokens := by
  refine ⟨?_, ?_, ?_, ?_, ?_, ?_⟩ <;> (simp only [sessionDeltaUpdate]; split <;> rfl)

/-- Token total carried by one parsed result when it is a session-level
delta (the sentinel identifier), zero when it is a tool invocation. -/
def CodexCLIAdapter.sentinelTotal (r : String × CodexCLIAdapter.CodexUsage) : Int :=
  if r.1 = "__session__" then
    r.2.input_tokens + r.2.output_tokens + r.2.cache_created_tokens + r.2.cache_read_tokens
  else 0

/-- Token total carried by one parsed result when it is a session-level
delta (the sentinel identifier), zero when it is a tool invocation. -/
def GeminiCLIAdapter.sentinelTotal (r : String × GeminiCLIAdapter.GeminiUsage) : Int :=
  if r.1 = "__session__" then
    r.2.input_tokens + r.2.output_tokens + r.2.cache_created_tokens + r.2.cache_read_tokens
  else 0

/-- The sum of `sentinelTotal` over a parsed-result stream. -/
def CodexCLIAdapter.sentinelTotals (evs : List (String × CodexCLIAdapter.CodexUsage)) : Int :=
  sumList CodexCLIAdapter.sentinelTotal evs

/-- The sum of `sentinelTotal` over a parsed-result stream. -/
def GeminiCLIAdapter.sentinelTotals (evs : List (String × GeminiCLIAdapter.GeminiUsage)) : Int :=
  sumList GeminiCLIAdapter.sentinelTotal evs

theorem codex_step_ledger (s : CodexCLIAdapter.CodexState) (r : String × CodexCLIAdapter.CodexUsage) :
    (CodexCLIAdapter.process_tool_call s r.1 r.2).tracker.token_usage.total_tokens -
        callFieldSum (fun c => c.total_tokens) (CodexCLIAdapter.process_tool_call s r.1 r.2).tracker =
      s.tracker.token_usage.total_tokens - callFieldSum (fun c => c.total_tokens) s.tracker +
        CodexCLIAdapter.sentinelTotal r := by
  obtain ⟨name, u⟩ := r
  by_cases h : name = "__session__"
  · have hc := (sessionDeltaUpdate_counters s.tracker.token_usage u.input_tokens
      u.output_tokens u.cache_created_tokens u.cache_read_tokens).2.2.2.2.1
    simp [CodexCLIAdapter.process_tool_call, CodexCLIAdapter.sentinelTotal, h, callFieldSum, hc]
    ring
  · have hr := callFieldSum_record (fun c => c.total_tokens) s.tracker name
      u.input_tokens u.output_tokens u.cache_created_tokens u.cache_read_tokens 0
      (u.tool_params.map compute_content_hash)
    have ht := (record_token_usage s.tracker name u.input_tokens u.output_tokens
      u.cache_created_tokens u.cache_read_tokens 0 (u.tool_params.map compute_content_hash)).2.2.2.2.1
    simp [CodexCLIAdapter.process_tool_call, CodexCLIAdapter.sentinelTotal, h, hr, ht, recordedCall]

theorem codex_processAll_ledger (evs : List (String × CodexCLIAdapter.CodexUsage)) :
    ∀ s : CodexCLIAdapter.CodexState,
      (CodexCLIAdapter.processAll s evs).tracker.token_usage.total_tokens -
          callFieldSum (fun c => c.total_tokens) (CodexCLIAdapter.processAll s evs).tracker =
        s.tracker.token_usage.total_tokens - callFieldSum (fun c => c.total_tokens) s.tracker +
          CodexCLIAdapter.sentinelTotals evs := by
  induction evs with
  | nil => intro s; simp [CodexCLIAdapter.processAll, CodexCLIAdapter.sentinelTotals, sumList]
  | cons r rest ih =>
    intro s
    have hstep := codex_step_ledger s r
    simp only [CodexCLIAdapter.processAll, CodexCLIAdapter.sentinelTotals, sumList] at *
    rw [ih, hstep]
    ring

theorem gemini_step_ledger (s : GeminiCLIAdapter.GeminiState) (r : String × GeminiCLIAdapter.GeminiUsage) :
    (GeminiCLIAdapter.process_tool_call s r.1 r.2).tracker.token_usage.total_tokens -
        callFieldSum (fun c => c.total_tokens) (GeminiCLIAdapter.process_tool_call s r.1 r.2).tracker =
      s.tracker.token_usage.total_tokens - callFieldSum (fun c => c.total_tokens) s.tracker +
        GeminiCLIAdapter.sentinelTotal r := by
  obtain ⟨name, u⟩ := r
  by_cases h : name = "__session__"
  · have hc := (sessionDeltaUpdate_counters s.tracker.token_usage u.input_tokens
      u.output_tokens u.cache_created_tokens u.cache_read_tokens).2.2.2.2.1
    simp [GeminiCLIAdapter.process_tool_call, GeminiCLIAdapter.sentinelTotal, h, callFieldSum, hc]
    ring
  · have hr := callFieldSum_record (fun c => c.total_tokens) s.tracker name
      u.input_tokens u.output_tokens u.cache_created_tokens u.cache_read_tokens
      u.duration_ms none
    have ht := (record_token_usage s.tracker name u.input_tokens u.output_tokens
      u.cache_created_tokens u.cache_read_tokens u.duration_ms none).2.2.2.2.1
    simp [GeminiCLIAdapter.process_tool_call, GeminiCLIAdapter.sentinelTotal, h, hr, ht, recordedCall]

theorem gemini_processAll_ledger (evs : List (String × GeminiCLIAdapter.GeminiUsage)) :
    ∀ s : GeminiCLIAdapter.GeminiState,
      (GeminiCLIAdapter.processAll s evs).tracker.token_usage.total_tokens -
          callFieldSum (fun c => c.total_tokens) (GeminiCLIAdapter.processAll s evs).tracker =
        s.tracker.token_usage.total_tokens - callFieldSum (fun c => c.total_tokens) s.tracker +
          GeminiCLIAdapter.sentinelTotals evs := by
  induction evs with
  | nil => intro s; simp [GeminiCLIAdapter.processAll, GeminiCLIAdapter.sentinelTotals, sumList]
  | cons r rest ih =>
    intro s
    have hstep := gemini_step_ledger s r
    simp only [GeminiCLIAdapter.processAll, GeminiCLIAdapter.sentinelTotals, sumList] at *
    rw [ih, hstep]
    ring

/-- Claim C1: for every sequence of parsed events processed through an
adapter's `_process_tool_call` on a fresh session — tool invocations plus
sentinel session-level deltas — the session's `total_tokens` equals the sum
of `total_tokens` over all recorded `Call` records plus the sum of the
token totals of the session-level-only deltas applied so far.  Stated for
the Codex CLI adapter and for the Gemini CLI adapter. -/
theorem C1_session_total_is_calls_plus_deltas :
    (∀ evs : List (String × CodexCLIAdapter.CodexUsage),
      (CodexCLIAdapter.processAll {} evs).tracker.token_usage.total_tokens =
        callFieldSum (fun c => c.total_tokens) (CodexCLIAdapter.processAll {} evs).tracker +
          CodexCLIAdapter.sentinelTotals evs) ∧
    (∀ evs : List (String × GeminiCLIAdapter.GeminiUsage),
      (GeminiCLIAdapter.processAll {} evs).tracker.token_usage.total_tokens =
        callFieldSum (fun c => c.total_tokens) (GeminiCLIAdapter.processAll {} evs).tracker +
          GeminiCLIAdapter.sentinelTotals evs) := by
  constructor
  · intro evs
    have h := codex_processAll_ledger evs {}
    rw [show callFieldSum (fun c => c.total_tokens) ({} : CodexCLIAdapter.CodexState).tracker = 0
      from rfl] at h
    rw [show ({} : CodexCLIAdapter.CodexState).tracker.token_usage.total_tokens = 0 from rfl] at h
    omega
  · intro evs
    have h := gemini_processAll_ledger evs {}
    rw [show callFieldSum (fun c => c.total_tokens) ({} : GeminiCLIAdapter.GeminiState).tracker = 0
      from rfl] at h
    rw [show ({} : GeminiCLIAdapter.GeminiState).tracker.token_usage.total_tokens = 0 from rfl] at h
    omega

/-- Claim C3: processing an event whose identifier is the sentinel
`"__session__"` updates the session `TokenUsage` additively by exactly the
given delta and changes nothing else: no `Call` record is created (the
call counter and every call history are untouched), no `ServerSession` or
`ToolStats` entry is created or mutated, and the content-hash index is
unchanged.  Stated for both adapters; for the Gemini adapter the pending
counters are also untouched. -/
theorem C3_sentinel_updates_only_token_usage :
    (∀ (s : CodexCLIAdapter.CodexState) (u : CodexCLIAdapter.CodexUsage),
      (CodexCLIAdapter.process_tool_call s "__session__" u).tracker.server_sessions =
          s.tracker.server_sessions ∧
        (CodexCLIAdapter.process_tool_call s "__session__" u).tracker.content_hashes =
          s.tracker.content_hashes ∧
        (CodexCLIAdapter.process_tool_call s "__session__" u).tracker.total_call_count =
          s.tracker.total_call_count ∧
        (CodexCLIAdapter.process_tool_call s "__session__" u).tracker.warnings =
          s.tracker.warnings ∧
        (CodexCLIAdapter.process_tool_call s "__session__" u).tracker.token_usage.input_tokens =
          s.tracker.token_usage.input_tokens + u.input_tokens ∧
        (CodexCLIAdapter.process_tool_call s "__session__" u).tracker.token_usage.output_tokens =
          s.tracker.token_usage.output_tokens + u.output_tokens ∧
        (CodexCLIAdapter.process_tool_call s "__session__" u).tracker.token_usage.cache_created_tokens =
          s.tracker.token_usage.cache_created_tokens + u.cache_created_tokens ∧
        (CodexCLIAdapter.process_tool_call s "__session__" u).tracker.token_usage.cache_read_tokens =
          s.tracker.token_usage.cache_read_tokens + u.cache_read_tokens ∧
        (CodexCLIAdapter.process_tool_call s "__session__" u).tracker.token_usage.total_tokens =
          s.tracker.token_usage.total_tokens +
            (u.input_tokens + u.output_tokens + u.cache_created_tokens + u.cache_read_tokens)) ∧
    (∀ (s : GeminiCLIAdapter.GeminiState) (u : GeminiCLIAdapter.GeminiUsage),
      (GeminiCLIAdapter.process_tool_call s "__session__" u).tracker.server_sessions =
          s.tracker.server_sessions ∧
        (GeminiCLIAdapter.process_tool_call s "__session__" u).tracker.content_hashes =
          s.tracker.content_hashes ∧
        (GeminiCLIAdapter.process_tool_call s "__session__" u).tracker.total_call_count =
          s.tracker.total_call_count ∧
        (GeminiCLIAdapter.process_tool_call s "__session__" u).tracker.warnings =
          s.tracker.warnings ∧
        (GeminiCLIAdapter.process_tool_call s "__session__" u).pending_input = s.pending_input ∧
        (GeminiCLIAdapter.process_tool_call s "__session__" u).pending_output = s.pending_output ∧
        (GeminiCLIAdapter.process_tool_call s "__session__" u).pending_cache = s.pending_cache ∧
        (GeminiCLIAdapter.process_tool_call s "__session__" u).pending_latencies =
          s.pending_latencies ∧
        (GeminiCLIAdapter.process_tool_call s "__session__" u).tracker.token_usage.input_tokens =
          s.tracker.token_usage.input_tokens + u.input_tokens ∧
        (GeminiCLIAdapter.process_tool_call s "__session__" u).tracker.token_usage.output_tokens =
          s.tracker.token_usage.output_tokens + u.output_tokens ∧
        (GeminiCLIAdapter.process_tool_call s "__session__" u).tracker.token_usage.cache_created_tokens =
          s.tracker.token_usage.cache_created_tokens + u.cache_created_tokens ∧
        (GeminiCLIAdapter.process_tool_call s "__session__" u).tracker.token_usage.cache_read_tokens =
          s.tracker.token_usage.cache_read_tokens + u.cache_read_tokens ∧
        (GeminiCLIAdapter.process_tool_call s "__session__" u).tracker.token_usage.total_tokens =
          s.tracker.token_usage.total_tokens +
            (u.input_tokens + u.output_tokens + u.cache_created_tokens + u.cache_read_tokens)) := by
  constructor
  · intro s u
    have hc := sessionDeltaUpdate_counters s.tracker.token_usage u.input_tokens
      u.output_tokens u.cache_created_tokens u.cache_read_tokens
    refine ⟨rfl, rfl, rfl, rfl, ?_, ?_, ?_, ?_, ?_⟩
    · simpa [CodexCLIAdapter.process_tool_call] using hc.1
    · simpa [CodexCLIAdapter.process_tool_call] using hc.2.1
    · simpa [CodexCLIAdapter.process_tool_call] using hc.2.2.1
    · simpa [CodexCLIAdapter.process_tool_call] using hc.2.2.2.1
    · simpa [CodexCLIAdapter.process_tool_call] using hc.2.2.2.2.1
  · intro s u
    have hc := sessionDeltaUpdate_counters s.tracker.token_usage u.input_tokens
      u.output_tokens u.cache_created_tokens u.cache_read_tokens
    refine ⟨rfl, rfl, rfl, rfl, rfl, rfl, rfl, rfl, ?_, ?_, ?_, ?_, ?_⟩
    · simpa [GeminiCLIAdapter.process_tool_call] using hc.1
    · simpa [GeminiCLIAdapter.process_tool_call] using hc.2.1
    · simpa [GeminiCLIAdapter.process_tool_call] using hc.2.2.1
    · simpa [GeminiCLIAdapter.process_tool_call] using hc.2.2.2.1
    · simpa [GeminiCLIAdapter.process_tool_call] using hc.2.2.2.2.1

/-- The cache-efficiency coherence invariant of a ledger: the stored ratio
matches the formula over the current counters, and the counters feeding the
denominator are non-negative. -/
def effInvariant (t : TrackerState) : Prop :=
  t.token_usage.cache_efficiency = cacheEfficiencyOf t.token_usage ∧
    0 ≤ t.token_usage.input_tokens ∧
    0 ≤ t.token_usage.cache_created_tokens ∧
    0 ≤ t.token_usage.cache_read_tokens

theorem sessionDeltaUpdate_eff (u : TokenUsage) (i o cc cr : Int)
    (heff : u.cache_efficiency = cacheEfficiencyOf u)
    (h1 : 0 ≤ u.input_tokens) (h2 : 0 ≤ u.cache_created_tokens)
    (h3 : 0 ≤ u.cache_read_tokens) (hi : 0 ≤ i) (hcc : 0 ≤ cc) (hcr : 0 ≤ cr) :
    (sessionDeltaUpdate u i o cc cr).cache_efficiency =
      cacheEfficiencyOf (sessionDeltaUpdate u i o cc cr) := by
  simp only [sessionDeltaUpdate]
  split
  next hT =>
    have hne : ¬(u.input_tokens + i + (u.cache_created_tokens + cc) + (u.cache_read_tokens + cr) = 0) := by
      omega
    simp [cacheEfficiencyOf, hne]
  next hT =>
    have hzero : u.input_tokens + i + (u.cache_created_tokens + cc) + (u.cache_read_tokens + cr) = 0 := by
      omega
    have hold : u.input_tokens + u.cache_created_tokens + u.cache_read_tokens = 0 := by omega
    simp only [cacheEfficiencyOf] at heff ⊢
    simp [hzero, hold] at heff ⊢
    exact heff

theorem codex_step_eff (s : CodexCLIAdapter.CodexState) (name : String)
    (u : CodexCLIAdapter.CodexUsage) (hs : effInvariant s.tracker)
    (hu : 0 ≤ u.input_tokens ∧ 0 ≤ u.cache_created_tokens ∧ 0 ≤ u.cache_read_tokens) :
    effInvariant (CodexCLIAdapter.process_tool_call s name u).tracker := by
  obtain ⟨heff, h1, h2, h3⟩ := hs
  by_cases h : name = "__session__"
  · have hc := sessionDeltaUpdate_counters s.tracker.token_usage u.input_tokens
      u.output_tokens u.cache_created_tokens u.cache_read_tokens
    have he := sessionDeltaUpdate_eff s.tracker.token_usage u.input_tokens
      u.output_tokens u.cache_created_tokens u.cache_read_tokens heff h1 h2 h3 hu.1 hu.2.1 hu.2.2
    refine ⟨?_, ?_, ?_, ?_⟩ <;>
      simp only [CodexCLIAdapter.process_tool_call, h, if_true, if_pos rfl]
    · exact he
    · rw [hc.1]; omega
    · rw [hc.2.2.1]; omega
    · rw [hc.2.2.2.1]; omega
  · have ht := record_token_usage s.tracker name u.input_tokens u.output_tokens
      u.cache_created_tokens u.cache_read_tokens 0 (u.tool_params.map compute_content_hash)
    refine ⟨?_, ?_, ?_, ?_⟩ <;>
      simp only [CodexCLIAdapter.process_tool_call, h, if_false, if_neg h]
    · exact ht.2.2.2.2.2
    · rw [ht.1]; omega
    · rw [ht.2.2.1]; omega
    · rw [ht.2.2.2.1]; omega

theorem gemini_step_eff (s : GeminiCLIAdapter.GeminiState) (name : String)
    (u : GeminiCLIAdapter.GeminiUsage) (hs : effInvariant s.tracker)
    (hu : 0 ≤ u.input_tokens ∧ 0 ≤ u.cache_created_tokens ∧ 0 ≤ u.cache_read_tokens) :
    effInvariant (GeminiCLIAdapter.process_tool_call s name u).tracker := by
  obtain ⟨heff, h1, h2, h3⟩ := hs
  by_cases h : name = "__session__"
  · have hc := sessionDeltaUpdate_counters s.tracker.token_usage u.input_tokens
      u.output_tokens u.cache_created_tokens u.cache_read_tokens
    have he := sessionDeltaUpdate_eff s.tracker.token_usage u.input_tokens
      u.output_tokens u.cache_created_tokens u.cache_read_tokens heff h1 h2 h3 hu.1 hu.2.1 hu.2.2
    refine ⟨?_, ?_, ?_, ?_⟩ <;>
      simp only [GeminiCLIAdapter.process_tool_call, h, if_true, if_pos rfl]
    · exact he
    · rw [hc.1]; omega
    · rw [hc.2.2.1]; omega
    · rw [hc.2.2.2.1]; omega
  · have ht := record_token_usage s.tracker name u.input_tokens u.output_tokens
      u.cache_created_tokens u.cache_read_tokens u.duration_ms none
    refine ⟨?_, ?_, ?_, ?_⟩ <;>
      simp only [GeminiCLIAdapter.process_tool_call, h, if_false, if_neg h]
    · exact ht.2.2.2.2.2
    · rw [ht.1]; omega
    · rw [ht.2.2.1]; omega
    · rw [ht.2.2.2.1]; omega

theorem codex_processAll_eff (evs : List (String × CodexCLIAdapter.CodexUsage)) :
    ∀ s : CodexCLIAdapter.CodexState, effInvariant s.tracker →
      (∀ r ∈ evs, 0 ≤ r.2.input_tokens ∧ 0 ≤ r.2.cache_created_tokens ∧
        0 ≤ r.2.cache_read_tokens) →
      effInvariant (CodexCLIAdapter.processAll s evs).tracker := by
  induction evs with
  | nil => intro s hs _; simpa [CodexCLIAdapter.processAll] using hs
  | cons r rest ih =>
    intro s hs hr
    simp only [CodexCLIAdapter.processAll]
    exact ih _ (codex_step_eff s r.1 r.2 hs (hr r (by simp)))
      (fun q hq => hr q (by simp [hq]))

theorem gemini_processAll_eff (evs : List (String × GeminiCLIAdapter.GeminiUsage)) :
    ∀ s : GeminiCLIAdapter.GeminiState, effInvariant s.tracker →
      (∀ r ∈ evs, 0 ≤ r.2.input_tokens ∧ 0 ≤ r.2.cache_created_tokens ∧
        0 ≤ r.2.cache_read_tokens) →
      effInvariant (GeminiCLIAdapter.processAll s evs).tracker := by
  induction evs with
  | nil => intro s hs _; simpa [GeminiCLIAdapter.processAll] using hs
  | cons r rest ih =>
    intro s hs hr
    simp only [GeminiCLIAdapter.processAll]
    exact ih _ (gemini_step_eff s r.1 r.2 hs (hr r (by simp)))
      (fun q hq => hr q (by simp [hq]))

/-- Claim C5 as amended: for event streams whose token deltas are
non-negative — the shape every genuine token count takes — after every
recorded token update the stored `cache_efficiency` of the session
`TokenUsage` equals cache-read / (input + cache-created + cache-read), and
equals zero when that denominator is zero (the formula
`cacheEfficiencyOf`).  Stated for both adapters' `_process_tool_call` from
a fresh session; a separate counterexample shows the restriction to
non-negative deltas is necessary. -/
theorem C5_cache_efficiency_matches_formula :
    (∀ evs : List (String × CodexCLIAdapter.CodexUsage),
      (∀ r ∈ evs, 0 ≤ r.2.input_tokens ∧ 0 ≤ r.2.cache_created_tokens ∧
        0 ≤ r.2.cache_read_tokens) →
      (CodexCLIAdapter.processAll {} evs).tracker.token_usage.cache_efficiency =
        cacheEfficiencyOf (CodexCLIAdapter.processAll {} evs).tracker.token_usage) ∧
    (∀ evs : List (String × GeminiCLIAdapter.GeminiUsage),
      (∀ r ∈ evs, 0 ≤ r.2.input_tokens ∧ 0 ≤ r.2.cache_created_tokens ∧
        0 ≤ r.2.cache_read_tokens) →
      (GeminiCLIAdapter.processAll {} evs).tracker.token_usage.cache_efficiency =
        cacheEfficiencyOf (GeminiCLIAdapter.processAll {} evs).tracker.token_usage) := by
  have h0 : effInvariant ({} : TrackerState) :=
    ⟨by norm_num [cacheEfficiencyOf], by norm_num, by norm_num, by norm_num⟩
  constructor
  · intro evs hr
    exact (codex_processAll_eff evs {} h0 hr).1
  · intro evs hr
    exact (gemini_processAll_eff evs {} h0 hr).1

/-- A concrete mixed event stream for the Codex adapter: one session-level
delta followed by one tool invocation. -/
def codexEffWitnessEvents : List (String × CodexCLIAdapter.CodexUsage) :=
  [("__session__",
    { input_tokens := 100, output_tokens := 50, cache_created_tokens := 20,
      cache_read_tokens := 500 }),
   ("mcp__zen__chat",
    { input_tokens := 30, output_tokens := 10, cache_created_tokens := 0,
      cache_read_tokens := 60 })]

/-- A concrete mixed event stream for the Gemini adapter. -/
def geminiEffWitnessEvents : List (String × GeminiCLIAdapter.GeminiUsage) :=
  [("__session__",
    { input_tokens := 40, output_tokens := 5, cache_created_tokens := 0,
      cache_read_tokens := 8 }),
   ("mcp__zen__chat",
    { input_tokens := 12, output_tokens := 3, cache_created_tokens := 0,
      cache_read_tokens := 0, duration_ms := 7 })]

/-- Witness for claim C5 at the concrete event streams above. -/
theorem C5_cache_efficiency_matches_formula_witness :
    ((∀ r ∈ codexEffWitnessEvents, 0 ≤ r.2.input_tokens ∧ 0 ≤ r.2.cache_created_tokens ∧
        0 ≤ r.2.cache_read_tokens) ∧
      (CodexCLIAdapter.processAll {} codexEffWitnessEvents).tracker.token_usage.cache_efficiency =
        cacheEfficiencyOf (CodexCLIAdapter.processAll {} codexEffWitnessEvents).tracker.token_usage) ∧
    ((∀ r ∈ geminiEffWitnessEvents, 0 ≤ r.2.input_tokens ∧ 0 ≤ r.2.cache_created_tokens ∧
        0 ≤ r.2.cache_read_tokens) ∧
      (GeminiCLIAdapter.processAll {} geminiEffWitnessEvents).tracker.token_usage.cache_efficiency =
        cacheEfficiencyOf (GeminiCLIAdapter.processAll {} geminiEffWitnessEvents).tracker.token_usage) :=
  ⟨⟨by decide, C5_cache_efficiency_matches_formula.1 codexEffWitnessEvents (by decide)⟩,
   ⟨by decide, C5_cache_efficiency_matches_formula.2 geminiEffWitnessEvents (by decide)⟩⟩

/-- A Codex CLI `token_count` event whose cumulative counters
(`total_token_usage`) report input = 5000; as in the native logs the
duplicated event carries identical `last_token_usage` numbers as well. -/
def duplicateCumulativeEvent : CodexCLIAdapter.CodexLine :=
  .event (.token_count (some
    { last_token_usage := some { input_tokens := 5000 }
      total_token_usage := some { input_tokens := 5000 } }))

/-- Claim C2, refuted on the code: the Codex CLI adapter keeps no last-seen
cumulative values.  Feeding the same token event twice through
`parse_event` and `_process_tool_call` adds the parsed numbers twice: the
session ends with `input_tokens = 10000`, not the claimed 5000.  This
contradicts the repository's own test suite
(`TestTokenDuplicateEventHandling` in `tests/test_codex_cli_adapter.py`),
which requires duplicate events not to inflate the totals. -/
theorem C2_duplicate_cumulative_double_counts :
    (CodexCLIAdapter.ingestAll {} [duplicateCumulativeEvent, duplicateCumulativeEvent]).tracker.token_usage.input_tokens = 10000 := by
  decide

/-- Claim C4: normalization of raw tool identifiers.  `mcp__zen__chat`
maps to server `zen` with the identifier unchanged; a trailing `-mcp` is
stripped from the server segment only and the canonical identifier is
re-emitted with the stripped server substituted; hyphens that are not the
`-mcp` suffix are preserved; and any identifier that does not start with
`mcp__` yields server `unknown`, the raw identifier passed through
unchanged, and a raised non-fatal warning flag. -/
theorem C4_normalization_cases :
    normalizeToolIdentifier "mcp__zen__chat" = ("zen", "mcp__zen__chat", false) ∧
      normalizeToolIdentifier "mcp__zen-mcp__chat" = ("zen", "mcp__zen__chat", false) ∧
      normalizeToolIdentifier "mcp__brave-search-mcp__web" =
        ("brave-search", "mcp__brave-search__web", false) ∧
      normalizeToolIdentifier "Read" = ("unknown", "Read", true) ∧
      (∀ s : String, s.data.take 5 ≠ "mcp__".data →
        normalizeToolIdentifier s = ("unknown", s, true)) := by
  refine ⟨by decide, by decide, by decide, by decide, ?_⟩
  intro s h
  simp [normalizeToolIdentifier, h]

/-- Witness for claim C4 at the concrete identifier `Read`, discharging
the prefix hypothesis of its universally quantified conjunct. -/
theorem C4_normalization_cases_witness :
    ("Read" : String).data.take 5 ≠ "mcp__".data ∧
      normalizeToolIdentifier "Read" = ("unknown", "Read", true) :=
  ⟨by decide, C4_normalization_cases.2.2.2.2 "Read" (by decide)⟩

/-- Claim C9: a malformed input line never aborts processing.  For both
adapters, `parse_event` on a line on which the JSON decoder raises emits
one non-fatal warning, returns no result, leaves every ledger component
unchanged, and the ingestion loop continues with the next event exactly as
if only the warning had been appended. -/
theorem C9_malformed_line_is_nonfatal :
    (∀ (s : CodexCLIAdapter.CodexState) (err : String),
      (CodexCLIAdapter.parse_event s (.malformed err)).2 = none ∧
        (CodexCLIAdapter.parse_event s (.malformed err)).1.tracker.token_usage =
          s.tracker.token_usage ∧
        (CodexCLIAdapter.parse_event s (.malformed err)).1.tracker.server_sessions =
          s.tracker.server_sessions ∧
        (CodexCLIAdapter.parse_event s (.malformed err)).1.tracker.content_hashes =
          s.tracker.content_hashes ∧
        (CodexCLIAdapter.parse_event s (.malformed err)).1.tracker.total_call_count =
          s.tracker.total_call_count ∧
        (CodexCLIAdapter.parse_event s (.malformed err)).1.tracker.warnings =
          s.tracker.warnings ++ ["Parse error: " ++ err] ∧
        (∀ rest : List CodexCLIAdapter.CodexLine,
          CodexCLIAdapter.ingestAll s (.malformed err :: rest) =
            CodexCLIAdapter.ingestAll (CodexCLIAdapter.parse_event s (.malformed err)).1 rest)) ∧
    (∀ (s : GeminiCLIAdapter.GeminiState) (err : String),
      (GeminiCLIAdapter.parse_event s (.malformed err)).2 = none ∧
        (GeminiCLIAdapter.parse_event s (.malformed err)).1.tracker.token_usage =
          s.tracker.token_usage ∧
        (GeminiCLIAdapter.parse_event s (.malformed err)).1.tracker.server_sessions =
          s.tracker.server_sessions ∧
        (GeminiCLIAdapter.parse_event s (.malformed err)).1.tracker.content_hashes =
          s.tracker.content_hashes ∧
        (GeminiCLIAdapter.parse_event s (.malformed err)).1.tracker.total_call_count =
          s.tracker.total_call_count ∧
        (GeminiCLIAdapter.parse_event s (.malformed err)).1.tracker.warnings =
          s.tracker.warnings ++ ["Parse error: " ++ err] ∧
        (GeminiCLIAdapter.parse_event s (.malformed err)).1.pending_input = s.pending_input ∧
        (GeminiCLIAdapter.parse_event s (.malformed err)).1.pending_latencies =
          s.pending_latencies ∧
        (∀ rest : List GeminiCLIAdapter.GeminiLine,
          GeminiCLIAdapter.ingestAll s (.malformed err :: rest) =
            GeminiCLIAdapter.ingestAll (GeminiCLIAdapter.parse_event s (.malformed err)).1 rest)) := by
  constructor
  · intro s err
    refine ⟨rfl, rfl, rfl, rfl, rfl, rfl, ?_⟩
    intro rest
    rfl
  · intro s err
    refine ⟨rfl, rfl, rfl, rfl, rfl, rfl, rfl, rfl, ?_⟩
    intro rest
    rfl

theorem redundancy_foldl (t : TrackerState) (l : List (String × List Nat)) :
    ∀ a : Nat × Int,
      l.foldl (fun acc bucket =>
          (acc.1 + (bucket.2.length - 1), acc.2 + sumList (tokensAtIndex t) bucket.2.tail)) a =
        (a.1 + sumListNat (fun b => b.2.length - 1) l,
         a.2 + sumList (fun b => sumList (tokensAtIndex t) b.2.tail) l) := by
  induction l with
  | nil => intro a; simp [sumListNat, sumList]
  | cons b rest ih =>
    intro a
    simp only [List.foldl_cons, ih, sumListNat, sumList]
    refine Prod.ext ?_ ?_ <;> simp <;> omega

/-- The three-call scenario of the redundancy claim: three tool calls of
150 total tokens each, the first two sharing one content hash. -/
def redundancyScenario : TrackerState :=
  record_tool_call
    (record_tool_call
      (record_tool_call {} "mcp__zen__chat" 100 50 0 0 0 (some "abc123"))
      "mcp__zen__chat" 100 50 0 0 0 (some "abc123"))
    "mcp__zen__chat" 100 50 0 0 0 (some "def456")

/-- Claim C6: at finalization, the redundancy analysis yields a duplicate
count equal to the sum over content-hash buckets of (bucket size minus one)
and a potential-savings figure equal to the sum, over the occurrences after
the first of each bucket, of that call's total tokens; in particular the
three-call scenario with one shared hash yields one duplicate call and 150
potentially saved tokens. -/
theorem C6_redundancy_analysis :
    (∀ (t : TrackerState) (end_time : Nat),
      (finalize_session t end_time).redundancy_analysis.duplicate_calls =
          sumListNat (fun b => b.2.length - 1) t.content_hashes ∧
        (finalize_session t end_time).redundancy_analysis.potential_savings =
          sumList (fun b => sumList (tokensAtIndex t) b.2.tail) t.content_hashes) ∧
      (finalize_session redundancyScenario 0).redundancy_analysis =
        { duplicate_calls := 1, potential_savings := 150 } := by
  constructor
  · intro t end_time
    have h := redundancy_foldl t t.content_hashes (0, 0)
    have ha : analyze_redundancy t =
        { duplicate_calls := sumListNat (fun b => b.2.length - 1) t.content_hashes
          potential_savings := sumList (fun b => sumList (tokensAtIndex t) b.2.tail) t.content_hashes } := by
      simp only [analyze_redundancy]
      rw [h]
      simp
    exact ⟨by simp [finalize_session, ha], by simp [finalize_session, ha]⟩
  · decide

/-- Claim C8: `finalize_session` is idempotent.  Finalizing the same
recorded ledger twice (at arbitrary end times) yields identical derived
results — the MCP summary, the redundancy analysis, the anomaly list and
the cache analysis are equal — and finalization recomputes them from the
same recorded calls without mutating the call or tool-statistics history,
whose snapshot it embeds unchanged. -/
theorem C8_finalize_idempotent :
    ∀ (t : TrackerState) (t1 t2 : Nat),
      (finalize_session t t1).mcp_tool_calls = (finalize_session t t2).mcp_tool_calls ∧
        (finalize_session t t1).redundancy_analysis =
          (finalize_session t t2).redundancy_analysis ∧
        (finalize_session t t1).anomalies = (finalize_session t t2).anomalies ∧
        (finalize_session t t1).cache_analysis = (finalize_session t t2).cache_analysis ∧
        (finalize_session t t1).token_usage = (finalize_session t t2).token_usage ∧
        (finalize_session t t1).server_sessions = t.server_sessions ∧
        (finalize_session t t1).token_usage = t.token_usage :=
  fun _ _ _ => ⟨rfl, rfl, rfl, rfl, rfl, rfl, rfl⟩

theorem mem_detect_anomalies_tools_hf (tool : String) (n : Nat) :
    ∀ l : List (String × ToolStats),
      Anomaly.high_frequency tool n ∈ detect_anomalies_tools l ↔
        ∃ e ∈ l, e.1 = tool ∧ e.2.calls = n ∧ HIGH_FREQUENCY_THRESHOLD < n := by
  intro l
  induction l with
  | nil => simp [detect_anomalies_tools]
  | cons e rest ih =>
    obtain ⟨name, st⟩ := e
    by_cases hA : HIGH_FREQUENCY_THRESHOLD < st.calls <;>
      by_cases hB : HIGH_AVG_TOKENS_THRESHOLD < st.avgTokens <;>
        simp [detect_anomalies_tools, hA, hB, ih] <;>
          aesop

theorem mem_detect_anomalies_tools_hat (tool : String) (q : ℚ) :
    ∀ l : List (String × ToolStats),
      Anomaly.high_avg_tokens tool q ∈ detect_anomalies_tools l ↔
        ∃ e ∈ l, e.1 = tool ∧ e.2.avgTokens = q ∧ HIGH_AVG_TOKENS_THRESHOLD < q := by
  intro l
  induction l with
  | nil => simp [detect_anomalies_tools]
  | cons e rest ih =>
    obtain ⟨name, st⟩ := e
    by_cases hA : HIGH_FREQUENCY_THRESHOLD < st.calls <;>
      by_cases hB : HIGH_AVG_TOKENS_THRESHOLD < st.avgTokens <;>
        simp [detect_anomalies_tools, hA, hB, ih] <;>
          aesop

theorem mem_detect_anomalies_hf (tool : String) (n : Nat) :
    ∀ ss : List (String × ServerSession),
      Anomaly.high_frequency tool n ∈ detect_anomalies ss ↔
        ∃ p ∈ ss, ∃ e ∈ p.2.tools, e.1 = tool ∧ e.2.calls = n ∧ HIGH_FREQUENCY_THRESHOLD < n := by
  intro ss
  induction ss with
  | nil => simp [detect_anomalies]
  | cons p rest ih =>
    obtain ⟨sname, sv⟩ := p
    simp [detect_anomalies, ih, mem_detect_anomalies_tools_hf]

theorem mem_detect_anomalies_hat (tool : String) (q : ℚ) :
    ∀ ss : List (String × ServerSession),
      Anomaly.high_avg_tokens tool q ∈ detect_anomalies ss ↔
        ∃ p ∈ ss, ∃ e ∈ p.2.tools, e.1 = tool ∧ e.2.avgTokens = q ∧
          HIGH_AVG_TOKENS_THRESHOLD < q := by
  intro ss
  induction ss with
  | nil => simp [detect_anomalies]
  | cons p rest ih =>
    obtain ⟨sname, sv⟩ := p
    simp [detect_anomalies, ih, mem_detect_anomalies_tools_hat]

/-- Fifteen identical recordings of one tool, built by iterating
`record_tool_call`. -/
def repeatRecord (name : String) (i o cc cr : Int) : Nat → TrackerState
  | 0 => {}
  | n + 1 => record_tool_call (repeatRecord name i o cc cr n) name i o cc cr

/-- The high-frequency scenario of the anomaly claim: fifteen calls of the
same tool. -/
def highFrequencyScenario : TrackerState := repeatRecord "mcp__zen__chat" 100 50 0 0 15

/-- The high-average-tokens scenario of the anomaly claim: a single call
with input 400000 and output 200000. -/
def highAvgScenario : TrackerState := record_tool_call {} "mcp__zen__thinkdeep" 400000 200000 0 0

/-- The server map that the high-frequency scenario produces. -/
def highFrequencyServers : List (String × ServerSession) :=
  [("zen", { server := "zen", total_calls := 15, total_tokens := 2250,
             tools := [("mcp__zen__chat",
               { calls := 15, total_tokens := 2250,
                 call_history := (List.range 15).map (fun i =>
                   { tool_name := "mcp__zen__chat", server := "zen", index := i + 1,
                     input_tokens := 100, output_tokens := 50, total_tokens := 150 }) })] })]

/-- The single recorded call of the high-average-tokens scenario. -/
def highAvgCall : Call :=
  { tool_name := "mcp__zen__thinkdeep"
    server := "zen"
    index := 1
    input_tokens := 400000
    output_tokens := 200000
    total_tokens := 600000 }

/-- The server map that the high-average-tokens scenario produces. -/
def highAvgServers : List (String × ServerSession) :=
  [("zen", { server := "zen", total_calls := 1, total_tokens := 600000,
             tools := [("mcp__zen__thinkdeep",
               { calls := 1, total_tokens := 600000, call_history := [highAvgCall] })] })]

/-- Claim C7: at finalization, anomaly detection flags a `high_frequency`
anomaly exactly for the tools whose call count exceeds the fixed threshold
10, carrying the tool name and the call count, and a `high_avg_tokens`
anomaly exactly for the tools whose average tokens per call exceeds the
fixed threshold 500000; in particular fifteen identical calls yield
exactly one anomaly (high frequency, 15 calls), and a single call of
input 400000 and output 200000 yields exactly one anomaly (high average,
600000 tokens per call). -/
theorem C7_anomaly_detection :
    (∀ (t : TrackerState) (end_time : Nat) (tool : String) (n : Nat),
      Anomaly.high_frequency tool n ∈ (finalize_session t end_time).anomalies ↔
        ∃ p ∈ t.server_sessions, ∃ e ∈ p.2.tools,
          e.1 = tool ∧ e.2.calls = n ∧ HIGH_FREQUENCY_THRESHOLD < n) ∧
    (∀ (t : TrackerState) (end_time : Nat) (tool : String) (q : ℚ),
      Anomaly.high_avg_tokens tool q ∈ (finalize_session t end_time).anomalies ↔
        ∃ p ∈ t.server_sessions, ∃ e ∈ p.2.tools,
          e.1 = tool ∧ e.2.avgTokens = q ∧ HIGH_AVG_TOKENS_THRESHOLD < q) ∧
    (finalize_session highFrequencyScenario 0).anomalies =
      [Anomaly.high_frequency "mcp__zen__chat" 15] ∧
    (finalize_session highAvgScenario 0).anomalies =
      [Anomaly.high_avg_tokens "mcp__zen__thinkdeep" 600000] := by
  refine ⟨?_, ?_, ?_, ?_⟩
  · intro t end_time tool n
    exact mem_detect_anomalies_hf tool n t.server_sessions
  · intro t end_time tool q
    exact mem_detect_anomalies_hat tool q t.server_sessions
  · have hs : highFrequencyScenario.server_sessions = highFrequencyServers := by decide
    show detect_anomalies highFrequencyScenario.server_sessions = _
    rw [hs]
    norm_num [detect_anomalies, detect_anomalies_tools, ToolStats.avgTokens,
      highFrequencyServers, HIGH_FREQUENCY_THRESHOLD, HIGH_AVG_TOKENS_THRESHOLD]
  · have hs : highAvgScenario.server_sessions = highAvgServers := by decide
    show detect_anomalies highAvgScenario.server_sessions = _
    rw [hs]
    norm_num [detect_anomalies, detect_anomalies_tools, ToolStats.avgTokens,
      highAvgServers, HIGH_FREQUENCY_THRESHOLD, HIGH_AVG_TOKENS_THRESHOLD]

namespace GeminiCLIAdapter

/-- All input tokens ever attributed to recorded calls plus the input
tokens still pending attribution. -/
def inputAttributed (s : GeminiState) : Int :=
  callFieldSum (fun c => c.input_tokens) s.tracker + s.pending_input

/-- All output tokens ever attributed to recorded calls plus the output
tokens still pending attribution. -/
def outputAttributed (s : GeminiState) : Int :=
  callFieldSum (fun c => c.output_tokens) s.tracker + s.pending_output

/-- All cache-read tokens ever attributed to recorded calls (accumulated in
the per-tool statistics) plus the cache tokens still pending
attribution. -/
def cacheAttributed (s : GeminiState) : Int :=
  statsFieldSum (fun st => st.cache_read_tokens) s.tracker + s.pending_cache

/-- The token value an input line feeds into the pending counter of the
given type: the value of a `token.usage` metric of that type, zero for
every other line, following the dispatch order of `parse_event`. -/
def tokenUsageValue (ttype : String) : GeminiLine → Int
  | .malformed _ => 0
  | .metric metric_name attrs value =>
    if containsSub METRIC_TOOL_CALL_COUNT.data metric_name.data then 0
    else if containsSub METRIC_TOKEN_USAGE.data metric_name.data then
      if attrs.token_type = ttype then value else 0
    else 0

/-- The sum of `tokenUsageValue` over a line stream. -/
def tokenUsageValues (ttype : String) (lines : List GeminiLine) : Int :=
  sumList (tokenUsageValue ttype) lines

end GeminiCLIAdapter

theorem gemini_name_ne_sentinel (name : String)
    (h : leadsWith "mcp__".data name.data = true) : name ≠ "__session__" := by
  intro heq
  subst heq
  exact absurd h (by decide)

theorem gemini_process_measures (s : GeminiCLIAdapter.GeminiState) (name : String)
    (u : GeminiCLIAdapter.GeminiUsage) (h : name ≠ "__session__") :
    GeminiCLIAdapter.inputAttributed (GeminiCLIAdapter.process_tool_call s name u) =
        GeminiCLIAdapter.inputAttributed s + u.input_tokens ∧
      GeminiCLIAdapter.outputAttributed (GeminiCLIAdapter.process_tool_call s name u) =
        GeminiCLIAdapter.outputAttributed s + u.output_tokens ∧
      GeminiCLIAdapter.cacheAttributed (GeminiCLIAdapter.process_tool_call s name u) =
        GeminiCLIAdapter.cacheAttributed s + u.cache_read_tokens := by
  have hi := callFieldSum_record (fun c => c.input_tokens) s.tracker name u.input_tokens
    u.output_tokens u.cache_created_tokens u.cache_read_tokens u.duration_ms none
  have ho := callFieldSum_record (fun c => c.output_tokens) s.tracker name u.input_tokens
    u.output_tokens u.cache_created_tokens u.cache_read_tokens u.duration_ms none
  have hc := statsFieldSum_record (fun st => st.cache_read_tokens) u.cache_read_tokens
    s.tracker name u.input_tokens u.output_tokens u.cache_created_tokens u.cache_read_tokens
    u.duration_ms none (fun st c => by simp [ToolStats.addCall]) rfl
  refine ⟨?_, ?_, ?_⟩ <;>
    simp [GeminiCLIAdapter.process_tool_call, h, GeminiCLIAdapter.inputAttributed,
      GeminiCLIAdapter.outputAttributed, GeminiCLIAdapter.cacheAttributed, hi, ho, hc,
      recordedCall] <;>
    ring

theorem gemini_process_sentinel_measures (s : GeminiCLIAdapter.GeminiState)
    (u : GeminiCLIAdapter.GeminiUsage) :
    GeminiCLIAdapter.inputAttributed (GeminiCLIAdapter.process_tool_call s "__session__" u) =
        GeminiCLIAdapter.inputAttributed s ∧
      GeminiCLIAdapter.outputAttributed (GeminiCLIAdapter.process_tool_call s "__session__" u) =
        GeminiCLIAdapter.outputAttributed s ∧
      GeminiCLIAdapter.cacheAttributed (GeminiCLIAdapter.process_tool_call s "__session__" u) =
        GeminiCLIAdapter.cacheAttributed s := by
  refine ⟨rfl, rfl, rfl⟩

theorem detect_model_tracker (s : GeminiCLIAdapter.GeminiState) (m : Option String) :
    (GeminiCLIAdapter.detect_model s m).tracker = s.tracker := by
  cases m with
  | none => rfl
  | some m' => cases hd : s.detected_model <;> simp [GeminiCLIAdapter.detect_model, hd]

theorem detect_model_pending_input (s : GeminiCLIAdapter.GeminiState) (m : Option String) :
    (GeminiCLIAdapter.detect_model s m).pending_input = s.pending_input := by
  cases m with
  | none => rfl
  | some m' => cases hd : s.detected_model <;> simp [GeminiCLIAdapter.detect_model, hd]

theorem detect_model_pending_output (s : GeminiCLIAdapter.GeminiState) (m : Option String) :
    (GeminiCLIAdapter.detect_model s m).pending_output = s.pending_output := by
  cases m with
  | none => rfl
  | some m' => cases hd : s.detected_model <;> simp [GeminiCLIAdapter.detect_model, hd]

theorem detect_model_pending_cache (s : GeminiCLIAdapter.GeminiState) (m : Option String) :
    (GeminiCLIAdapter.detect_model s m).pending_cache = s.pending_cache := by
  cases m with
  | none => rfl
  | some m' => cases hd : s.detected_model <;> simp [GeminiCLIAdapter.detect_model, hd]

theorem detect_model_pending_thought (s : GeminiCLIAdapter.GeminiState) (m : Option String) :
    (GeminiCLIAdapter.detect_model s m).pending_thought = s.pending_thought := by
  cases m with
  | none => rfl
  | some m' => cases hd : s.detected_model <;> simp [GeminiCLIAdapter.detect_model, hd]

theorem detect_model_pending_latencies (s : GeminiCLIAdapter.GeminiState) (m : Option String) :
    (GeminiCLIAdapter.detect_model s m).pending_latencies = s.pending_latencies := by
  cases m with
  | none => rfl
  | some m' => cases hd : s.detected_model <;> simp [GeminiCLIAdapter.detect_model, hd]

theorem gemini_usage_step (s : GeminiCLIAdapter.GeminiState) (attrs : GeminiCLIAdapter.GeminiAttrs)
    (v : Int) :
    GeminiCLIAdapter.inputAttributed
        (match GeminiCLIAdapter.parse_token_usage s attrs v with
          | (s', some r) => GeminiCLIAdapter.process_tool_call s' r.1 r.2
          | (s', none) => s') =
        GeminiCLIAdapter.inputAttributed s + (if attrs.token_type = "input" then v else 0) ∧
      GeminiCLIAdapter.outputAttributed
          (match GeminiCLIAdapter.parse_token_usage s attrs v with
            | (s', some r) => GeminiCLIAdapter.process_tool_call s' r.1 r.2
            | (s', none) => s') =
        GeminiCLIAdapter.outputAttributed s + (if attrs.token_type = "output" then v else 0) ∧
      GeminiCLIAdapter.cacheAttributed
          (match GeminiCLIAdapter.parse_token_usage s attrs v with
            | (s', some r) => GeminiCLIAdapter.process_tool_call s' r.1 r.2
            | (s', none) => s') =
        GeminiCLIAdapter.cacheAttributed s + (if attrs.token_type = "cache" then v else 0) := by
  by_cases hti : attrs.token_type = "input"
  · by_cases hv : 0 < v <;>
      simp [GeminiCLIAdapter.parse_token_usage, GeminiCLIAdapter.process_tool_call,
        GeminiCLIAdapter.inputAttributed, GeminiCLIAdapter.outputAttributed,
        GeminiCLIAdapter.cacheAttributed, detect_model_tracker, detect_model_pending_input,
        detect_model_pending_output, detect_model_pending_cache, detect_model_pending_thought,
        callFieldSum, statsFieldSum, hti, hv] <;> try omega
  · by_cases hto : attrs.token_type = "output"
    · by_cases hv : 0 < v <;>
        simp [GeminiCLIAdapter.parse_token_usage, GeminiCLIAdapter.process_tool_call,
          GeminiCLIAdapter.inputAttributed, GeminiCLIAdapter.outputAttributed,
          GeminiCLIAdapter.cacheAttributed, detect_model_tracker, detect_model_pending_input,
          detect_model_pending_output, detect_model_pending_cache, detect_model_pending_thought,
          callFieldSum, statsFieldSum, hti, hto, hv] <;> try omega
    · by_cases htt : attrs.token_type = "thought"
      · by_cases hv : 0 < v <;>
          simp [GeminiCLIAdapter.parse_token_usage, GeminiCLIAdapter.process_tool_call,
            GeminiCLIAdapter.inputAttributed, GeminiCLIAdapter.outputAttributed,
            GeminiCLIAdapter.cacheAttributed, detect_model_tracker, detect_model_pending_input,
            detect_model_pending_output, detect_model_pending_cache, detect_model_pending_thought,
            callFieldSum, statsFieldSum, hti, hto, htt, hv]
      · by_cases htc : attrs.token_type = "cache"
        · by_cases hv : 0 < v <;>
            simp [GeminiCLIAdapter.parse_token_usage, GeminiCLIAdapter.process_tool_call,
              GeminiCLIAdapter.inputAttributed, GeminiCLIAdapter.outputAttributed,
              GeminiCLIAdapter.cacheAttributed, detect_model_tracker, detect_model_pending_input,
              detect_model_pending_output, detect_model_pending_cache, detect_model_pending_thought,
              callFieldSum, statsFieldSum, hti, hto, htt, htc, hv] <;> try omega
        · by_cases hv : 0 < v <;>
            simp [GeminiCLIAdapter.parse_token_usage, GeminiCLIAdapter.process_tool_call,
              GeminiCLIAdapter.inputAttributed, GeminiCLIAdapter.outputAttributed,
              GeminiCLIAdapter.cacheAttributed, detect_model_tracker, detect_model_pending_input,
              detect_model_pending_output, detect_model_pending_cache, detect_model_pending_thought,
              callFieldSum, statsFieldSum, hti, hto, htt, htc, hv]

theorem gemini_count_step (s : GeminiCLIAdapter.GeminiState) (attrs : GeminiCLIAdapter.GeminiAttrs) :
    GeminiCLIAdapter.inputAttributed
        (match GeminiCLIAdapter.parse_tool_call_count s attrs with
          | (s', some r) => GeminiCLIAdapter.process_tool_call s' r.1 r.2
          | (s', none) => s') =
        GeminiCLIAdapter.inputAttributed s ∧
      GeminiCLIAdapter.outputAttributed
          (match GeminiCLIAdapter.parse_tool_call_count s attrs with
            | (s', some r) => GeminiCLIAdapter.process_tool_call s' r.1 r.2
            | (s', none) => s') =
        GeminiCLIAdapter.outputAttributed s ∧
      GeminiCLIAdapter.cacheAttributed
          (match GeminiCLIAdapter.parse_tool_call_count s attrs with
            | (s', some r) => GeminiCLIAdapter.process_tool_call s' r.1 r.2
            | (s', none) => s') =
        GeminiCLIAdapter.cacheAttributed s := by
  by_cases h2 : attrs.tool_type = "mcp"
  · by_cases h3 : leadsWith "mcp__".data attrs.function_name.data = true
    · have hne := gemini_name_ne_sentinel attrs.function_name h3
      have hm := gemini_process_measures
        { s with
          pending_latencies := eraseKey attrs.function_name s.pending_latencies
          pending_input := 0
          pending_output := 0
          pending_cache := 0
          pending_thought := 0 }
        attrs.function_name
        { input_tokens := s.pending_input
          output_tokens := s.pending_output
          cache_created_tokens := 0
          cache_read_tokens := s.pending_cache
          duration_ms := lookupKeyD attrs.function_name 0 s.pending_latencies
          success := attrs.success
          decision := attrs.decision }
        hne
      simp only [GeminiCLIAdapter.parse_tool_call_count, h2, h3, ne_eq, not_true_eq_false,
        if_false, Bool.not_eq_true, ite_eq_right_iff, if_true, if_pos, if_neg] at hm ⊢
      refine ⟨?_, ?_, ?_⟩
      · rw [hm.1]
        simp [GeminiCLIAdapter.inputAttributed, callFieldSum]
      · rw [hm.2.1]
        simp [GeminiCLIAdapter.outputAttributed, callFieldSum]
      · rw [hm.2.2]
        simp [GeminiCLIAdapter.cacheAttributed, statsFieldSum]
    · refine ⟨?_, ?_, ?_⟩ <;>
        simp [GeminiCLIAdapter.parse_tool_call_count, h2, h3]
  · refine ⟨?_, ?_, ?_⟩ <;>
      simp [GeminiCLIAdapter.parse_tool_call_count, h2]

theorem gemini_ingest_measures (s : GeminiCLIAdapter.GeminiState)
    (l : GeminiCLIAdapter.GeminiLine) :
    GeminiCLIAdapter.inputAttributed (GeminiCLIAdapter.ingest s l) =
        GeminiCLIAdapter.inputAttributed s + GeminiCLIAdapter.tokenUsageValue "input" l ∧
      GeminiCLIAdapter.outputAttributed (GeminiCLIAdapter.ingest s l) =
        GeminiCLIAdapter.outputAttributed s + GeminiCLIAdapter.tokenUsageValue "output" l ∧
      GeminiCLIAdapter.cacheAttributed (GeminiCLIAdapter.ingest s l) =
        GeminiCLIAdapter.cacheAttributed s + GeminiCLIAdapter.tokenUsageValue "cache" l := by
  cases l with
  | malformed err =>
    refine ⟨?_, ?_, ?_⟩ <;>
      simp [GeminiCLIAdapter.ingest, GeminiCLIAdapter.parse_event,
        GeminiCLIAdapter.tokenUsageValue, GeminiCLIAdapter.inputAttributed,
        GeminiCLIAdapter.outputAttributed, GeminiCLIAdapter.cacheAttributed,
        handle_unrecognized_line, callFieldSum, statsFieldSum]
  | metric name attrs v =>
    by_cases h1 : containsSub GeminiCLIAdapter.METRIC_TOOL_CALL_COUNT.data name.data = true
    · have hc := gemini_count_step s attrs
      refine ⟨?_, ?_, ?_⟩ <;>
        simp only [GeminiCLIAdapter.ingest, GeminiCLIAdapter.parse_event, h1, if_true,
          GeminiCLIAdapter.tokenUsageValue] at hc ⊢ <;>
        simp [hc.1, hc.2.1, hc.2.2]
    · by_cases h2 : containsSub GeminiCLIAdapter.METRIC_TOKEN_USAGE.data name.data = true
      · have hu := gemini_usage_step s attrs v
        refine ⟨?_, ?_, ?_⟩ <;>
          simp only [GeminiCLIAdapter.ingest, GeminiCLIAdapter.parse_event, h1, h2,
            Bool.false_eq_true, if_false, if_true, GeminiCLIAdapter.tokenUsageValue] at hu ⊢ <;>
          simp [hu.1, hu.2.1, hu.2.2]
      · by_cases h3 : containsSub GeminiCLIAdapter.METRIC_TOOL_CALL_LATENCY.data name.data = true <;>
          refine ⟨?_, ?_, ?_⟩ <;>
            simp [GeminiCLIAdapter.ingest, GeminiCLIAdapter.parse_event, h1, h2, h3,
              GeminiCLIAdapter.parse_tool_latency, GeminiCLIAdapter.inputAttributed,
              GeminiCLIAdapter.outputAttributed, GeminiCLIAdapter.cacheAttributed,
              GeminiCLIAdapter.tokenUsageValue, callFieldSum, statsFieldSum] <;>
            split <;> simp

theorem gemini_ingestAll_measures (lines : List GeminiCLIAdapter.GeminiLine) :
    ∀ s : GeminiCLIAdapter.GeminiState,
      GeminiCLIAdapter.inputAttributed (GeminiCLIAdapter.ingestAll s lines) =
          GeminiCLIAdapter.inputAttributed s +
            GeminiCLIAdapter.tokenUsageValues "input" lines ∧
        GeminiCLIAdapter.outputAttributed (GeminiCLIAdapter.ingestAll s lines) =
          GeminiCLIAdapter.outputAttributed s +
            GeminiCLIAdapter.tokenUsageValues "output" lines ∧
        GeminiCLIAdapter.cacheAttributed (GeminiCLIAdapter.ingestAll s lines) =
          GeminiCLIAdapter.cacheAttributed s +
            GeminiCLIAdapter.tokenUsageValues "cache" lines := by
  induction lines with
  | nil =>
    intro s
    simp [GeminiCLIAdapter.ingestAll, GeminiCLIAdapter.tokenUsageValues, sumList]
  | cons l rest ih =>
    intro s
    have hstep := gemini_ingest_measures s l
    have hrest := ih (GeminiCLIAdapter.ingest s l)
    refine ⟨?_, ?_, ?_⟩ <;>
      simp only [GeminiCLIAdapter.ingestAll, GeminiCLIAdapter.tokenUsageValues, sumList] at * <;>
      omega

/-- Claim C10: in the Gemini CLI adapter no pending token amount or
latency is ever attributed to two calls.  First conjunct: whenever
`_parse_tool_call_count` yields an MCP tool call, its usage is built from
the pending input, output and cache counters and its duration from the
matching pending latency, and afterwards all four pending counters are
reset to zero and the matched latency entry is removed.  Remaining
conjuncts: over every telemetry line sequence from a fresh adapter, the
tokens attributed to recorded calls plus the tokens still pending equal
exactly the summed values of the `token.usage` events of that type — each
value is attributed at most once. -/
theorem C10_pending_tokens_attributed_once :
    (∀ (s : GeminiCLIAdapter.GeminiState) (attrs : GeminiCLIAdapter.GeminiAttrs),
      (GeminiCLIAdapter.parse_tool_call_count s attrs).2.isSome = true →
        (GeminiCLIAdapter.parse_tool_call_count s attrs).1.pending_input = 0 ∧
          (GeminiCLIAdapter.parse_tool_call_count s attrs).1.pending_output = 0 ∧
          (GeminiCLIAdapter.parse_tool_call_count s attrs).1.pending_cache = 0 ∧
          (GeminiCLIAdapter.parse_tool_call_count s attrs).1.pending_thought = 0 ∧
          lookupKey attrs.function_name
            (GeminiCLIAdapter.parse_tool_call_count s attrs).1.pending_latencies = none ∧
          (GeminiCLIAdapter.parse_tool_call_count s attrs).2 =
            some (attrs.function_name,
              { input_tokens := s.pending_input
                output_tokens := s.pending_output
                cache_created_tokens := 0
                cache_read_tokens := s.pending_cache
                duration_ms := lookupKeyD attrs.function_name 0 s.pending_latencies
                success := attrs.success
                decision := attrs.decision })) ∧
    (∀ lines : List GeminiCLIAdapter.GeminiLine,
      GeminiCLIAdapter.inputAttributed (GeminiCLIAdapter.ingestAll {} lines) =
          GeminiCLIAdapter.tokenUsageValues "input" lines ∧
        GeminiCLIAdapter.outputAttributed (GeminiCLIAdapter.ingestAll {} lines) =
          GeminiCLIAdapter.tokenUsageValues "output" lines ∧
        GeminiCLIAdapter.cacheAttributed (GeminiCLIAdapter.ingestAll {} lines) =
          GeminiCLIAdapter.tokenUsageValues "cache" lines) := by
  constructor
  · intro s attrs hres
    by_cases h2 : attrs.tool_type = "mcp"
    · by_cases h3 : leadsWith "mcp__".data attrs.function_name.data = true
      · refine ⟨?_, ?_, ?_, ?_, ?_, ?_⟩ <;>
          simp [GeminiCLIAdapter.parse_tool_call_count, h2, h3, lookupKey_eraseKey]
      · exact absurd hres (by simp [GeminiCLIAdapter.parse_tool_call_count, h2, h3])
    · exact absurd hres (by simp [GeminiCLIAdapter.parse_tool_call_count, h2])
  · intro lines
    have h := gemini_ingestAll_measures lines {}
    have h0i : GeminiCLIAdapter.inputAttributed {} = 0 := rfl
    have h0o : GeminiCLIAdapter.outputAttributed {} = 0 := rfl
    have h0c : GeminiCLIAdapter.cacheAttributed {} = 0 := rfl
    rw [h0i, h0o, h0c] at h
    simpa using h

/-- A tool-call-count attribute record naming an MCP tool. -/
def c10WitnessAttrs : GeminiCLIAdapter.GeminiAttrs :=
  { tool_type := "mcp", function_name := "mcp__zen__chat" }

/-- An adapter state with pending tokens and a pending latency awaiting
attribution. -/
def c10WitnessState : GeminiCLIAdapter.GeminiState :=
  { pending_input := 7, pending_output := 3, pending_cache := 2, pending_thought := 1,
    pending_latencies := [("mcp__zen__chat", 250)] }

/-- A concrete telemetry line sequence: an input token metric, a latency
metric, a tool call, and a duplicate-looking second input metric left
pending. -/
def c10WitnessLines : List GeminiCLIAdapter.GeminiLine :=
  [.metric "gemini_cli.token.usage" { token_type := "input" } 120,
   .metric "gemini_cli.token.usage" { token_type := "cache" } 30,
   .metric "gemini_cli.tool.call.latency" { function_name := "mcp__zen__chat" } 250,
   .metric "gemini_cli.tool.call.count" c10WitnessAttrs 1,
   .metric "gemini_cli.token.usage" { token_type := "input" } 5]

/-- Witness for claim C10 at the concrete state, attributes and line
sequence above. -/
theorem C10_pending_tokens_attributed_once_witness :
    ((GeminiCLIAdapter.parse_tool_call_count c10WitnessState c10WitnessAttrs).2.isSome = true ∧
      (GeminiCLIAdapter.parse_tool_call_count c10WitnessState c10WitnessAttrs).1.pending_input = 0 ∧
        (GeminiCLIAdapter.parse_tool_call_count c10WitnessState c10WitnessAttrs).1.pending_output = 0 ∧
        (GeminiCLIAdapter.parse_tool_call_count c10WitnessState c10WitnessAttrs).1.pending_cache = 0 ∧
        (GeminiCLIAdapter.parse_tool_call_count c10WitnessState c10WitnessAttrs).1.pending_thought = 0 ∧
        lookupKey c10WitnessAttrs.function_name
          (GeminiCLIAdapter.parse_tool_call_count c10WitnessState c10WitnessAttrs).1.pending_latencies = none ∧
        (GeminiCLIAdapter.parse_tool_call_count c10WitnessState c10WitnessAttrs).2 =
          some (c10WitnessAttrs.function_name,
            { input_tokens := c10WitnessState.pending_input
              output_tokens := c10WitnessState.pending_output
              cache_created_tokens := 0
              cache_read_tokens := c10WitnessState.pending_cache
              duration_ms := lookupKeyD c10WitnessAttrs.function_name 0
                c10WitnessState.pending_latencies
              success := c10WitnessAttrs.success
              decision := c10WitnessAttrs.decision })) ∧
      GeminiCLIAdapter.inputAttributed (GeminiCLIAdapter.ingestAll {} c10WitnessLines) =
        GeminiCLIAdapter.tokenUsageValues "input" c10WitnessLines :=
  ⟨⟨by decide,
    C10_pending_tokens_attributed_once.1 c10WitnessState c10WitnessAttrs (by decide)⟩,
   (C10_pending_tokens_attributed_once.2 c10WitnessLines).1⟩

/-- Two session-level deltas whose second entry carries negative input and
cache-read counts (valid arithmetic per the recording contract) with a
positive overall sum, driving the cache-efficiency denominator back to
zero. -/
def c5CounterexampleEvents : List (String × CodexCLIAdapter.CodexUsage) :=
  [("__session__", { input_tokens := 5, cache_read_tokens := 5 }),
   ("__session__", { input_tokens := -5, output_tokens := 11, cache_read_tokens := -5 })]

/-- Claim C5, refuted on the code as universally stated: the sentinel
branch recomputes the stored ratio only while the denominator is positive,
so a negative delta that returns the denominator to zero leaves the stale
ratio 1/2 in place where the formula yields 0. -/
theorem C5_stale_ratio_counterexample :
    (CodexCLIAdapter.processAll {} c5CounterexampleEvents).tracker.token_usage.cache_efficiency ≠
      cacheEfficiencyOf
        (CodexCLIAdapter.processAll {} c5CounterexampleEvents).tracker.token_usage := by
  have h : (CodexCLIAdapter.processAll {} c5CounterexampleEvents).tracker.token_usage =
      { input_tokens := 0, output_tokens := 11, reasoning_tokens := 0,
        cache_created_tokens := 0, cache_read_tokens := 0, total_tokens := 11,
        cache_efficiency := 1 / 2 } := by
    norm_num [c5CounterexampleEvents, CodexCLIAdapter.processAll,
      CodexCLIAdapter.process_tool_call, sessionDeltaUpdate]
  rw [h]
  norm_num [cacheEfficiencyOf]
